import Mathlib

/-!
# Verification of a paper-trading engine for binary options

A shallow embedding, in Lean 4, of the decision core of a Rust paper-trading
engine for short-horizon binary options: the expected-value computer
(`execution/ev.rs`), the robust Bayesian Kelly sizer (`risk/kelly.rs`), the
three digital-option pricing models (`models/black_scholes.rs`,
`models/jump_diffusion.rs`, `models/student_t.rs`), the isotonic (PAV)
calibrator (`models/calibration.rs`), the volatility estimator
(`models/volatility.rs`), the risk gate (`risk/limits.rs`), and the engine
decision loop `run_tick` / `settle_trades` (`paper/simulator.rs`).

Modelling conventions:
* `f64` values are modelled as rationals (`ℚ`); floating-point rounding is
  outside the scope of this embedding.
* The transcendental `f64` primitives (`ln`, `sqrt`, `exp`, the normal CDF
  `Φ` and the Student-t CDF) are external library calls in the source
  (`f64::ln`, `f64::sqrt`, `statrs`); they are modelled as explicit function
  parameters.  Concrete executions instantiate them with computable rational
  stand-ins (e.g. `Rat.sqrt`), which is sound for every theorem below: none
  of the verified properties depends on the analytic values these primitives
  return.
* Rust's in-place mutation is modelled by explicit state passing; `VecDeque`
  becomes a `List` whose head is the front of the deque; fixed-size arrays
  become `List`s of the corresponding length.
* `u64`/`usize` counters become `ℕ`, `i64` counters become `ℤ`.
-/

namespace Kalshi

/-- Rust `f64::clamp(lo, hi)`: `lo` if the value is below `lo`, `hi` if it is
above `hi`, the value itself otherwise. -/
def rclamp (x lo hi : ℚ) : ℚ :=
  if x < lo then lo else if x > hi then hi else x

theorem rclamp_mono {x y lo hi : ℚ} (h : lo ≤ hi) (hxy : x ≤ y) :
    rclamp x lo hi ≤ rclamp y lo hi := by
  unfold rclamp; split_ifs <;> linarith

-- ═══════════════════════════════════════════════════════════════════════════
-- execution/ev.rs — execution-adjusted expected value
-- ═══════════════════════════════════════════════════════════════════════════

/-- `EvParams` (execution/ev.rs). -/
structure EvParams where
  probability : ℚ
  contract_price : ℚ
  fee_rate : ℚ
  slippage : ℚ
  fill_probability : ℚ
deriving Repr

/-- `EvResult` (execution/ev.rs). -/
structure EvResult where
  ev : ℚ
  is_signal : Bool
  buy_yes : Bool
  effective_prob : ℚ
  ev_opposite : ℚ
deriving Repr

/-- `compute_ev` (execution/ev.rs): execution-adjusted EV for both the YES and
the NO side, returning the better side. -/
def compute_ev (params : EvParams) (threshold : ℚ) : EvResult :=
  let p := params.probability
  let c := params.contract_price
  let f := params.fee_rate
  let s := params.slippage
  let q := params.fill_probability
  let ev_yes := q * (p * (1 - c) * (1 - f) - (1 - p) * c - s)
  let no_price := 1 - c
  let ev_no := q * ((1 - p) * (1 - no_price) * (1 - f) - p * no_price - s)
  if ev_yes ≥ ev_no ∧ ev_yes > threshold then
    { ev := ev_yes, is_signal := true, buy_yes := true,
      effective_prob := p, ev_opposite := ev_no }
  else if ev_no > ev_yes ∧ ev_no > threshold then
    { ev := ev_no, is_signal := true, buy_yes := false,
      effective_prob := 1 - p, ev_opposite := ev_yes }
  else
    { ev := max ev_yes ev_no, is_signal := false,
      buy_yes := decide (ev_yes ≥ ev_no),
      effective_prob := p, ev_opposite := min ev_yes ev_no }

/-- The YES-side EV exactly as the claim writes it:
`EV_yes = q·(p·(1−c)·(1−f) − (1−p)·c − s)`. -/
def claimed_ev_yes (params : EvParams) : ℚ :=
  params.fill_probability *
    (params.probability * (1 - params.contract_price) * (1 - params.fee_rate)
      - (1 - params.probability) * params.contract_price - params.slippage)

/-- The NO-side EV exactly as the claim writes it:
`EV_no = q·((1−p)·c·(1−f) − p·(1−c) − s)`. -/
def claimed_ev_no (params : EvParams) : ℚ :=
  params.fill_probability *
    ((1 - params.probability) * params.contract_price * (1 - params.fee_rate)
      - params.probability * (1 - params.contract_price) - params.slippage)

/-- C3 counterexample: at `p = 0.3, c = 0.5, f = 0, s = 0, q = 1` and
`threshold = 1` the NO side has the larger EV (`buy_yes = false`) but neither
side beats the threshold, and `compute_ev` then reports
`effective_prob = p = 0.3`, not `1 − p = 0.7` as the claim requires for a
chosen NO side. -/
theorem compute_ev_effective_prob_counterexample :
    (compute_ev ⟨3/10, 1/2, 0, 0, 1⟩ 1).buy_yes = false ∧
    (compute_ev ⟨3/10, 1/2, 0, 0, 1⟩ 1).effective_prob = 3/10 ∧
    ¬ (compute_ev ⟨3/10, 1/2, 0, 0, 1⟩ 1).effective_prob
        = 1 - (3/10 : ℚ) := by
  refine ⟨?_, ?_, ?_⟩ <;> norm_num [compute_ev]

/-- C3 (amended): for all inputs, `compute_ev` returns
`ev = max(EV_yes, EV_no)`, `is_signal ↔ max(EV_yes, EV_no) > threshold`,
`buy_yes ↔ EV_yes ≥ EV_no`, `ev_opposite = min(EV_yes, EV_no)` (the other
side's EV), and `effective_prob` is `1 − p` exactly when the signal fires on
the NO side and `p` otherwise (in particular it stays `p` when no signal
fires, even if the NO side has the larger EV). -/
theorem compute_ev_eq (params : EvParams) (threshold : ℚ) :
    compute_ev params threshold =
      (if claimed_ev_yes params ≥ claimed_ev_no params
            ∧ claimed_ev_yes params > threshold then
        { ev := claimed_ev_yes params, is_signal := true, buy_yes := true,
          effective_prob := params.probability,
          ev_opposite := claimed_ev_no params }
      else if claimed_ev_no params > claimed_ev_yes params
            ∧ claimed_ev_no params > threshold then
        { ev := claimed_ev_no params, is_signal := true, buy_yes := false,
          effective_prob := 1 - params.probability,
          ev_opposite := claimed_ev_yes params }
      else
        { ev := max (claimed_ev_yes params) (claimed_ev_no params),
          is_signal := false,
          buy_yes := decide (claimed_ev_yes params ≥ claimed_ev_no params),
          effective_prob := params.probability,
          ev_opposite := min (claimed_ev_yes params) (claimed_ev_no params) }) := by
  have hyes : claimed_ev_yes params =
      params.fill_probability *
        (params.probability * (1 - params.contract_price) * (1 - params.fee_rate)
          - (1 - params.probability) * params.contract_price - params.slippage) := rfl
  have hno : claimed_ev_no params =
      params.fill_probability *
        ((1 - params.probability) * (1 - (1 - params.contract_price))
            * (1 - params.fee_rate)
          - params.probability * (1 - params.contract_price)
          - params.slippage) := by
    unfold claimed_ev_no; ring
  simp only [compute_ev]
  simp only [← hyes, ← hno]

theorem compute_ev_spec (params : EvParams) (threshold : ℚ) :
    (compute_ev params threshold).ev
        = max (claimed_ev_yes params) (claimed_ev_no params) ∧
    ((compute_ev params threshold).is_signal = true
        ↔ max (claimed_ev_yes params) (claimed_ev_no params) > threshold) ∧
    ((compute_ev params threshold).buy_yes = true
        ↔ claimed_ev_yes params ≥ claimed_ev_no params) ∧
    (compute_ev params threshold).ev_opposite
        = min (claimed_ev_yes params) (claimed_ev_no params) ∧
    (compute_ev params threshold).effective_prob
        = (if (compute_ev params threshold).is_signal = true
                ∧ (compute_ev params threshold).buy_yes = false
           then 1 - params.probability else params.probability) := by
  by_cases h1 : claimed_ev_yes params ≥ claimed_ev_no params
      ∧ claimed_ev_yes params > threshold
  · simp only [compute_ev_eq, if_pos h1]
    refine ⟨(max_eq_left h1.1).symm, ?_, ?_, (min_eq_right h1.1).symm, ?_⟩
    · simp [max_eq_left h1.1, h1.2]
    · simp [h1.1]
    · simp
  · by_cases h2 : claimed_ev_no params > claimed_ev_yes params
        ∧ claimed_ev_no params > threshold
    · simp only [compute_ev_eq, if_neg h1, if_pos h2]
      refine ⟨(max_eq_right h2.1.le).symm, ?_, ?_, (min_eq_left h2.1.le).symm, ?_⟩
      · simp [max_eq_right h2.1.le, h2.2]
      · simp [ge_iff_le, h2.1.not_le]
      · simp
    · simp only [compute_ev_eq, if_neg h1, if_neg h2]
      push_neg at h1 h2
      refine ⟨by trivial, ?_, by simp [ge_iff_le, decide_eq_true_iff], by trivial,
        by simp⟩
      simp only [Bool.false_eq_true, false_iff, gt_iff_lt, not_lt]
      rcases le_or_lt (claimed_ev_no params) (claimed_ev_yes params) with hle | hlt
      · rw [max_eq_left hle]; exact h1 hle
      · rw [max_eq_right hlt.le]; exact h2 hlt

-- ═══════════════════════════════════════════════════════════════════════════
-- risk/kelly.rs — robust Bayesian Kelly sizing
-- ═══════════════════════════════════════════════════════════════════════════

/-- `KellyParams` (risk/kelly.rs). -/
structure KellyParams where
  model_probability : ℚ
  alpha : ℚ
  beta : ℚ
  contract_price : ℚ
  fractional_gamma : ℚ
  lambda : ℚ
  max_position : ℚ
deriving Repr

/-- `KellyResult` (risk/kelly.rs). -/
structure KellyResult where
  raw_fraction : ℚ
  robust_fraction : ℚ
  contracts : ℚ
  p_eff : ℚ
  p_mean : ℚ
  p_std : ℚ
deriving Repr

/-- `compute_kelly` (risk/kelly.rs).  `sqrtFn` models `f64::sqrt`. -/
def compute_kelly (sqrtFn : ℚ → ℚ) (params : KellyParams) : KellyResult :=
  let alpha := max params.alpha 0.5
  let beta_val := max params.beta 0.5
  let c := rclamp params.contract_price 0.01 0.99
  let model_p := rclamp params.model_probability 0.01 0.99
  let ab_sum := alpha + beta_val
  let p_mean := alpha / ab_sum
  let p_var := (alpha * beta_val) / (ab_sum * ab_sum * (ab_sum + 1))
  let p_std := sqrtFn p_var
  let p_eff := rclamp (model_p - params.lambda * p_std) 0.01 0.99
  let b := (1 - c) / c
  let raw_fraction := (b * p_eff - (1 - p_eff)) / b
  if raw_fraction ≤ 0 then
    { raw_fraction := raw_fraction, robust_fraction := 0, contracts := 0,
      p_eff := p_eff, p_mean := p_mean, p_std := p_std }
  else
    let robust_fraction := raw_fraction * params.fractional_gamma
    let contracts :=
      max (min (robust_fraction * params.max_position) params.max_position) 0
    { raw_fraction := raw_fraction, robust_fraction := robust_fraction,
      contracts := contracts, p_eff := p_eff, p_mean := p_mean, p_std := p_std }

/-- The posterior standard deviation computed by `compute_kelly`:
`√(αβ / ((α+β)²(α+β+1)))` after flooring `α`, `β` at `0.5`. -/
def kelly_p_std (sqrtFn : ℚ → ℚ) (params : KellyParams) : ℚ :=
  let alpha := max params.alpha 0.5
  let beta_val := max params.beta 0.5
  let ab_sum := alpha + beta_val
  sqrtFn ((alpha * beta_val) / (ab_sum * ab_sum * (ab_sum + 1)))

/-- The payout ratio `b = (1−c)/c` with `c` the contract price clamped to
`[0.01, 0.99]`, as in `compute_kelly`. -/
def kelly_b (params : KellyParams) : ℚ :=
  let c := rclamp params.contract_price 0.01 0.99
  (1 - c) / c

/-- The effective probability as the code computes it: the model probability is
first clamped to `[0.01, 0.99]`, then shrunk by `λ·std`, then clamped again. -/
def kelly_p_eff (sqrtFn : ℚ → ℚ) (params : KellyParams) : ℚ :=
  rclamp (rclamp params.model_probability 0.01 0.99
      - params.lambda * kelly_p_std sqrtFn params) 0.01 0.99

/-- The raw Kelly fraction as the code computes it. -/
def kelly_raw (sqrtFn : ℚ → ℚ) (params : KellyParams) : ℚ :=
  (kelly_b params * kelly_p_eff sqrtFn params
    - (1 - kelly_p_eff sqrtFn params)) / kelly_b params

/-- The effective probability as the claim writes it:
`p_eff = clamp(p − λ·std, 0.01, 0.99)` with the *unclamped* model
probability `p`. -/
def claimed_kelly_p_eff (sqrtFn : ℚ → ℚ) (params : KellyParams) : ℚ :=
  rclamp (params.model_probability - params.lambda * kelly_p_std sqrtFn params)
    0.01 0.99

/-- The raw Kelly fraction as the claim writes it (built on
`claimed_kelly_p_eff`). -/
def claimed_kelly_raw (sqrtFn : ℚ → ℚ) (params : KellyParams) : ℚ :=
  (kelly_b params * claimed_kelly_p_eff sqrtFn params
    - (1 - claimed_kelly_p_eff sqrtFn params)) / kelly_b params

theorem rclamp_zero_max {x m : ℚ} (h : 0 ≤ m) :
    rclamp x 0 m = max (min x m) 0 := by
  simp only [rclamp, max_def, min_def]
  split_ifs <;> linarith

/-- C5 counterexample: at
`p = 2, α = β = 1.5, c = 0.5, γ = 1, λ = 1, max_position = 1` (with
`√(1/16) = 1/4` exact) the code clamps `p` to `0.99` *before* the `λ·std`
shrinkage and returns `contracts = 0.48`, while the claim's formula
`p_eff = clamp(p − λ·std, 0.01, 0.99)` yields `p_eff = 0.99`, `raw = 0.98 > 0`
and hence `contracts = clamp(0.98, 0, 1) = 0.98 ≠ 0.48`. -/
theorem compute_kelly_claim_counterexample :
    (compute_kelly Rat.sqrt ⟨2, 3/2, 3/2, 1/2, 1, 1, 1⟩).contracts = 12/25 ∧
    0 < claimed_kelly_raw Rat.sqrt ⟨2, 3/2, 3/2, 1/2, 1, 1, 1⟩ ∧
    rclamp (claimed_kelly_raw Rat.sqrt ⟨2, 3/2, 3/2, 1/2, 1, 1, 1⟩ * 1 * 1)
        0 1 = 49/50 ∧
    ¬ ((12 : ℚ)/25 = 49/50) := by
  have hs : Rat.sqrt ((1 : ℚ)/16) = 1/4 := by norm_num [Rat.sqrt]
  refine ⟨?_, ?_, ?_, by norm_num⟩
  · simp only [compute_kelly]
    norm_num [rclamp, hs]
  · norm_num [claimed_kelly_raw, claimed_kelly_p_eff, kelly_b, kelly_p_std,
      rclamp, hs]
  · norm_num [claimed_kelly_raw, claimed_kelly_p_eff, kelly_b, kelly_p_std,
      rclamp, hs]

/-- C5 (amended): for every `KellyParams` input with `max_position ≥ 0` and
every model of `f64::sqrt`, `compute_kelly` — with `c` the contract price
clamped to `[0.01, 0.99]`, `b = (1−c)/c`,
`p_eff = clamp(clamp(p, 0.01, 0.99) − λ·std, 0.01, 0.99)` (the model
probability is clamped *before* the shrinkage) and
`raw = (b·p_eff − (1−p_eff))/b` — returns `contracts = 0` whenever `raw ≤ 0`,
and otherwise `contracts = clamp(raw·γ·max_position, 0, max_position)`; in
every case `0 ≤ contracts ≤ max_position`. -/
theorem compute_kelly_spec (sqrtFn : ℚ → ℚ) (params : KellyParams)
    (h : 0 ≤ params.max_position) :
    (kelly_raw sqrtFn params ≤ 0 →
        (compute_kelly sqrtFn params).contracts = 0) ∧
    (0 < kelly_raw sqrtFn params →
        (compute_kelly sqrtFn params).contracts
          = rclamp (kelly_raw sqrtFn params * params.fractional_gamma
                * params.max_position) 0 params.max_position) ∧
    0 ≤ (compute_kelly sqrtFn params).contracts ∧
    (compute_kelly sqrtFn params).contracts ≤ params.max_position := by
  have hraw : kelly_raw sqrtFn params
      = (kelly_b params * kelly_p_eff sqrtFn params
          - (1 - kelly_p_eff sqrtFn params)) / kelly_b params := rfl
  have hres : compute_kelly sqrtFn params =
      (if kelly_raw sqrtFn params ≤ 0 then
        { raw_fraction := kelly_raw sqrtFn params, robust_fraction := 0,
          contracts := 0, p_eff := kelly_p_eff sqrtFn params,
          p_mean := max params.alpha 0.5
            / (max params.alpha 0.5 + max params.beta 0.5),
          p_std := kelly_p_std sqrtFn params }
      else
        { raw_fraction := kelly_raw sqrtFn params,
          robust_fraction := kelly_raw sqrtFn params * params.fractional_gamma,
          contracts := max (min (kelly_raw sqrtFn params
              * params.fractional_gamma * params.max_position)
            params.max_position) 0,
          p_eff := kelly_p_eff sqrtFn params,
          p_mean := max params.alpha 0.5
            / (max params.alpha 0.5 + max params.beta 0.5),
          p_std := kelly_p_std sqrtFn params }) := by
    simp only [compute_kelly, kelly_raw, kelly_p_eff, kelly_p_std, kelly_b]
  rw [hres]
  by_cases hr : kelly_raw sqrtFn params ≤ 0
  · rw [if_pos hr]
    exact ⟨fun _ => rfl, fun hlt => absurd hr (not_le_of_lt hlt), le_refl 0, h⟩
  · rw [if_neg hr]
    push_neg at hr
    refine ⟨fun hle => absurd hle (not_le_of_lt hr), fun _ => ?_, ?_, ?_⟩
    · rw [rclamp_zero_max h]
    · exact le_max_right _ 0
    · exact max_le (min_le_right _ _) h

/-- C5 witness: the amended statement instantiated at
`p = 0.6, α = β = 1, c = 0.3, γ = 0.2, λ = 1, max_position = 50` with
`sqrtFn = Rat.sqrt`. -/
theorem compute_kelly_spec_witness :
    (0 : ℚ) ≤ (KellyParams.mk 0.6 1 1 0.3 0.2 1 50).max_position ∧
    ((kelly_raw Rat.sqrt (KellyParams.mk 0.6 1 1 0.3 0.2 1 50) ≤ 0 →
        (compute_kelly Rat.sqrt (KellyParams.mk 0.6 1 1 0.3 0.2 1 50)).contracts
          = 0) ∧
      (0 < kelly_raw Rat.sqrt (KellyParams.mk 0.6 1 1 0.3 0.2 1 50) →
        (compute_kelly Rat.sqrt (KellyParams.mk 0.6 1 1 0.3 0.2 1 50)).contracts
          = rclamp (kelly_raw Rat.sqrt (KellyParams.mk 0.6 1 1 0.3 0.2 1 50)
                * (0.2 : ℚ) * 50) 0 50) ∧
      0 ≤ (compute_kelly Rat.sqrt (KellyParams.mk 0.6 1 1 0.3 0.2 1 50)).contracts ∧
      (compute_kelly Rat.sqrt (KellyParams.mk 0.6 1 1 0.3 0.2 1 50)).contracts
        ≤ 50) :=
  ⟨by norm_num, compute_kelly_spec Rat.sqrt _ (by norm_num)⟩

-- ═══════════════════════════════════════════════════════════════════════════
-- state.rs (ModelParams) and models/*.rs — digital-option pricing
-- ═══════════════════════════════════════════════════════════════════════════

/-- `ModelParams` (state.rs): precomputed per-tick pricing parameters. -/
structure ModelParams where
  spot : ℚ
  strike : ℚ
  ttl_years : ℚ
  sigma : ℚ
  ln_s_k : ℚ
  sqrt_t : ℚ
  sigma_sqrt_t : ℚ
  half_sigma_sq : ℚ
deriving Repr

/-- `ModelParams::new` (state.rs).  `lnFn` models `f64::ln`, `sqrtFn` models
`f64::sqrt`. -/
def ModelParams.new (lnFn sqrtFn : ℚ → ℚ) (spot strike ttl_seconds sigma : ℚ) :
    ModelParams :=
  let ttl_years := ttl_seconds / (365.25 * 24 * 3600)
  let ln_s_k := lnFn (spot / strike)
  let sqrt_t := sqrtFn ttl_years
  let sigma_sqrt_t := sigma * sqrt_t
  let half_sigma_sq := 0.5 * sigma * sigma
  { spot := spot, strike := strike, ttl_years := ttl_years, sigma := sigma,
    ln_s_k := ln_s_k, sqrt_t := sqrt_t, sigma_sqrt_t := sigma_sqrt_t,
    half_sigma_sq := half_sigma_sq }

/-- `VolContext` (models/mod.rs). -/
structure VolContext where
  jump_intensity : ℚ
  jump_mean : ℚ
  jump_var : ℚ
  student_t_nu : ℚ
deriving Repr

/-- `NUM_BUCKETS` (models/calibration.rs). -/
def NUM_BUCKETS : ℕ := 10

/-- A model of an `f64` value as fed to `prob_to_bucket`: NaN, the two
infinities, or a finite value. -/
inductive F64 where
  | nan : F64
  | inf : F64
  | ninf : F64
  | val : ℚ → F64
deriving Repr, DecidableEq

/-- `usize::MAX` on a 64-bit target. -/
def USIZE_MAX : ℕ := 2 ^ 64 - 1

/-- `prob * NUM_BUCKETS as f64` on the float model (the factor is a positive
integer, so signs and specials propagate as in IEEE 754). -/
def F64.mulPos : F64 → ℕ → F64
  | .nan, _ => .nan
  | .inf, _ => .inf
  | .ninf, _ => .ninf
  | .val q, n => .val (q * n)

/-- Rust's saturating `as usize` cast on `f64`: NaN ↦ 0, `−∞` and negative
values ↦ 0, `+∞` and values above `usize::MAX` ↦ `usize::MAX`, finite
positive values are truncated toward zero. -/
def F64.toUsize : F64 → ℕ
  | .nan => 0
  | .ninf => 0
  | .inf => USIZE_MAX
  | .val q => if q ≤ 0 then 0 else min (⌊q⌋.toNat) USIZE_MAX

/-- `prob_to_bucket` (models/calibration.rs):
`((prob * NUM_BUCKETS as f64) as usize).min(NUM_BUCKETS - 1)`. -/
def prob_to_bucket (prob : F64) : ℕ :=
  min ((prob.mulPos NUM_BUCKETS).toUsize) (NUM_BUCKETS - 1)

/-- `Calibrator` (models/calibration.rs): per-bucket
`(predicted_count, realized_count)`, the calibrated probabilities, and the
total observation count. -/
structure Calibrator where
  buckets : List (ℕ × ℕ)
  calibrated : List ℚ
  total : ℕ
deriving Repr

/-- `Calibrator::new` (models/calibration.rs). -/
def Calibrator.new : Calibrator :=
  { buckets := List.replicate NUM_BUCKETS (0, 0),
    calibrated := [0.05, 0.15, 0.25, 0.35, 0.45, 0.55, 0.65, 0.75, 0.85, 0.95],
    total := 0 }

/-- One merged PAV pool: pooled value, pooled weight, and the bucket range
`[lo, hi]` it covers (the source's `pool_start`/`pool_end` arrays). -/
structure Pool where
  val : ℚ
  wt : ℚ
  lo : ℕ
  hi : ℕ
deriving Repr

/-- Merging two adjacent pools: weighted average of the values, summed
weights, concatenated bucket range (`run_pav`'s merge step). -/
def Pool.merge (a b : Pool) : Pool :=
  { val := (a.val * a.wt + b.val * b.wt) / (a.wt + b.wt),
    wt := a.wt + b.wt, lo := a.lo, hi := b.hi }

/-- One left-to-right scan of `run_pav`'s inner `while i + 1 < pooled_len`
loop: adjacent violators are merged in place (the scan index stays on a
merged pool, as in the source), and the `Bool` is the source's `changed`
flag. -/
def pav_pass : List Pool → List Pool × Bool
  | [] => ([], false)
  | [a] => ([a], false)
  | a :: b :: rest =>
    if a.val > b.val then
      ((pav_pass (Pool.merge a b :: rest)).1, true)
    else
      let r := pav_pass (b :: rest)
      (a :: r.1, r.2)
termination_by l => l.length
decreasing_by all_goals simp [Pool.merge]

/-- `run_pav`'s outer `while changed && iterations < 100` loop, with the
iteration budget as fuel. -/
def pav_loop : ℕ → List Pool → List Pool
  | 0, l => l
  | n + 1, l =>
    let r := pav_pass l
    if r.2 then pav_loop n r.1 else r.1

/-- The initial per-bucket value of `run_pav`: the empirical frequency
`r/n` when the bucket has data, else the bucket midpoint. -/
def bucket_start_value (b : ℕ × ℕ) (i : ℕ) : ℚ :=
  if b.1 > 0 then (b.2 : ℚ) / (b.1 : ℚ) else ((i : ℚ) + 0.5) / (NUM_BUCKETS : ℚ)

/-- The initial per-bucket weight of `run_pav`: the bucket count when the
bucket has data, else the pseudo-weight `0.1`. -/
def bucket_start_weight (b : ℕ × ℕ) : ℚ :=
  if b.1 > 0 then (b.1 : ℚ) else 0.1

/-- The initial singleton pools of `run_pav` (`pool_start[i] = pool_end[i] = i`). -/
def initial_pools (buckets : List (ℕ × ℕ)) : List Pool :=
  (List.range NUM_BUCKETS).map (fun i =>
    { val := bucket_start_value (buckets.getD i (0, 0)) i,
      wt := bucket_start_weight (buckets.getD i (0, 0)),
      lo := i, hi := i })

/-- `run_pav`'s write-back of one pool: `for b in pool_start[p]..=pool_end[p]
{ if b < NUM_BUCKETS { calibrated[b] = val } }` with the value clamped to
`[0.001, 0.999]`. -/
def write_pool (cal : List ℚ) (p : Pool) : List ℚ :=
  (List.range' p.lo (p.hi + 1 - p.lo)).foldl
    (fun c b => if b < NUM_BUCKETS then c.set b (rclamp p.val 0.001 0.999) else c)
    cal

/-- `run_pav`'s full write-back over all surviving pools. -/
def write_back (cal : List ℚ) (pools : List Pool) : List ℚ :=
  pools.foldl write_pool cal

/-- `Calibrator::run_pav` (models/calibration.rs), acting on the bucket
counts and the calibrated array. -/
def run_pav (buckets : List (ℕ × ℕ)) (cal : List ℚ) : List ℚ :=
  write_back cal (pav_loop 100 (initial_pools buckets))

/-- `Calibrator::record` (models/calibration.rs): bump the bucket counts and
re-run PAV every 20 observations. -/
def Calibrator.record (c : Calibrator) (prob : F64) (realized : Bool) :
    Calibrator :=
  let bucket := prob_to_bucket prob
  let entry := c.buckets.getD bucket (0, 0)
  let entry' := (entry.1 + 1, if realized then entry.2 + 1 else entry.2)
  let buckets' := c.buckets.set bucket entry'
  let total' := c.total + 1
  if total' % 20 = 0 then
    { buckets := buckets', total := total',
      calibrated := run_pav buckets' c.calibrated }
  else
    { buckets := buckets', total := total', calibrated := c.calibrated }

/-- `Calibrator::calibrate` (models/calibration.rs): identity below 50
observations, else the calibrated value of the probability's bucket.  The
probability handed in by the engine is a finite value. -/
def Calibrator.calibrate (c : Calibrator) (prob : ℚ) : ℚ :=
  if c.total < 50 then prob
  else c.calibrated.getD (prob_to_bucket (F64.val prob)) 0

/-- C9: the bucketing function `⌊p·10⌋` is total and lands in `[0, 9]` for
every `f64` input — NaN and negative values saturate to bucket 0, large and
infinite values cap at bucket 9 — so `record` and `calibrate` (which index
the ten-element `buckets`/`calibrated` arrays with it) never go out of
bounds, and `record` preserves the array length. -/
theorem prob_to_bucket_total (p : F64) (q : ℚ) (c : Calibrator) (r : Bool)
    (hb : c.buckets.length = NUM_BUCKETS)
    (hc : c.calibrated.length = NUM_BUCKETS) :
    prob_to_bucket p < NUM_BUCKETS ∧
    prob_to_bucket F64.nan = 0 ∧
    prob_to_bucket F64.ninf = 0 ∧
    (q < 0 → prob_to_bucket (F64.val q) = 0) ∧
    prob_to_bucket F64.inf = NUM_BUCKETS - 1 ∧
    (c.record p r).buckets.length = NUM_BUCKETS ∧
    prob_to_bucket p < c.buckets.length ∧
    prob_to_bucket (F64.val q) < c.calibrated.length := by
  have hlt : ∀ x : F64, prob_to_bucket x < NUM_BUCKETS := fun x =>
    lt_of_le_of_lt (min_le_right _ _) (by norm_num [NUM_BUCKETS])
  refine ⟨hlt p, by decide, by decide, ?_, by decide, ?_, ?_, ?_⟩
  · intro hq
    simp only [prob_to_bucket, F64.mulPos, F64.toUsize, NUM_BUCKETS]
    rw [if_pos (le_of_lt (mul_neg_of_neg_of_pos hq (by norm_num)))]
    decide
  · simp only [Calibrator.record]
    split_ifs <;> simp [List.length_set, hb]
  · rw [hb]; exact hlt p
  · rw [hc]; exact hlt _

/-- C9 witness: bucket safety instantiated at the fresh calibrator with an
out-of-range probability `p = 2.5` and the negative probe `q = −1`. -/
theorem prob_to_bucket_total_witness :
    Calibrator.new.buckets.length = NUM_BUCKETS ∧
    Calibrator.new.calibrated.length = NUM_BUCKETS ∧
    (prob_to_bucket (F64.val (5/2)) < NUM_BUCKETS ∧
      prob_to_bucket F64.nan = 0 ∧
      prob_to_bucket F64.ninf = 0 ∧
      ((-1 : ℚ) < 0 → prob_to_bucket (F64.val (-1)) = 0) ∧
      prob_to_bucket F64.inf = NUM_BUCKETS - 1 ∧
      (Calibrator.new.record (F64.val (5/2)) true).buckets.length = NUM_BUCKETS ∧
      prob_to_bucket (F64.val (5/2)) < Calibrator.new.buckets.length ∧
      prob_to_bucket (F64.val (-1)) < Calibrator.new.calibrated.length) :=
  ⟨by decide, by decide,
    prob_to_bucket_total (F64.val (5/2)) (-1) Calibrator.new true
      (by decide) (by decide)⟩

-- PAV correctness (claim C6) ------------------------------------------------

theorem pav_pass_len_le (l : List Pool) : (pav_pass l).1.length ≤ l.length := by
  induction l using pav_pass.induct with
  | case1 => simp [pav_pass]
  | case2 a => simp [pav_pass]
  | case3 a b rest h ih =>
    rw [pav_pass, if_pos h]
    exact le_trans ih (by simp)
  | case4 a b rest h ih =>
    rw [pav_pass, if_neg h]
    simpa using ih

theorem pav_pass_false (l : List Pool) (hf : (pav_pass l).2 = false) :
    (pav_pass l).1 = l ∧ l.Chain' (fun a b => a.val ≤ b.val) := by
  induction l using pav_pass.induct with
  | case1 => simp [pav_pass]
  | case2 a => simp [pav_pass]
  | case3 a b rest h ih =>
    rw [pav_pass, if_pos h] at hf
    simp at hf
  | case4 a b rest h ih =>
    rw [pav_pass, if_neg h] at hf ⊢
    obtain ⟨heq, hchain⟩ := ih hf
    refine ⟨?_, List.chain'_cons.mpr ⟨le_of_not_lt h, hchain⟩⟩
    show a :: (pav_pass (b :: rest)).1 = a :: b :: rest
    rw [heq]

theorem pav_pass_true_len (l : List Pool) (ht : (pav_pass l).2 = true) :
    (pav_pass l).1.length < l.length := by
  induction l using pav_pass.induct with
  | case1 => simp [pav_pass] at ht
  | case2 a => simp [pav_pass] at ht
  | case3 a b rest h ih =>
    rw [pav_pass, if_pos h]
    exact lt_of_le_of_lt (pav_pass_len_le _) (by simp)
  | case4 a b rest h ih =>
    rw [pav_pass, if_neg h] at ht ⊢
    show (a :: (pav_pass (b :: rest)).1).length < (a :: b :: rest).length
    have := ih ht
    simp only [List.length_cons] at this ⊢
    omega

/-- The pool ranges tile the bucket indices `[s, NUM_BUCKETS)` contiguously
and in order. -/
def spans_from : ℕ → List Pool → Prop
  | s, [] => s = NUM_BUCKETS
  | s, p :: rest =>
    p.lo = s ∧ s ≤ p.hi ∧ p.hi < NUM_BUCKETS ∧ spans_from (p.hi + 1) rest

theorem pav_pass_spans (l : List Pool) :
    ∀ s, spans_from s l → spans_from s (pav_pass l).1 := by
  induction l using pav_pass.induct with
  | case1 => intro s hs; simpa [pav_pass] using hs
  | case2 a => intro s hs; simpa [pav_pass] using hs
  | case3 a b rest h ih =>
    intro s hs
    rw [pav_pass, if_pos h]
    obtain ⟨hlo, hle, hhi, hrest⟩ := hs
    obtain ⟨hlo2, hle2, hhi2, hrest2⟩ := hrest
    refine ih s ⟨?_, ?_, ?_, ?_⟩
    · simpa [Pool.merge] using hlo
    · simp only [Pool.merge]; omega
    · simpa [Pool.merge] using hhi2
    · simpa [Pool.merge] using hrest2
  | case4 a b rest h ih =>
    intro s hs
    rw [pav_pass, if_neg h]
    obtain ⟨hlo, hle, hhi, hrest⟩ := hs
    exact ⟨hlo, hle, hhi, ih (a.hi + 1) hrest⟩

theorem pav_loop_spans (fuel : ℕ) :
    ∀ (l : List Pool) (s : ℕ), spans_from s l →
      spans_from s (pav_loop fuel l) := by
  induction fuel with
  | zero => intro l s hs; exact hs
  | succ n ih =>
    intro l s hs
    rw [pav_loop]
    by_cases hc : (pav_pass l).2 = true
    · rw [if_pos hc]
      exact ih _ s (pav_pass_spans l s hs)
    · rw [if_neg hc]
      exact pav_pass_spans l s hs

theorem pav_loop_chain (fuel : ℕ) :
    ∀ l : List Pool, l.length ≤ fuel →
      (pav_loop fuel l).Chain' (fun a b => a.val ≤ b.val) := by
  induction fuel with
  | zero =>
    intro l h
    obtain rfl := List.length_eq_zero.mp (Nat.le_zero.mp h)
    simp [pav_loop]
  | succ n ih =>
    intro l h
    rw [pav_loop]
    by_cases hc : (pav_pass l).2 = true
    · rw [if_pos hc]
      exact ih _ (by have := pav_pass_true_len l hc; omega)
    · rw [if_neg hc]
      obtain ⟨heq, hchain⟩ := pav_pass_false l (by simpa using hc)
      rw [heq]
      exact hchain

theorem fold_set_length (v : ℚ) (L : List ℕ) :
    ∀ cal : List ℚ,
      (L.foldl (fun c b => if b < NUM_BUCKETS then c.set b v else c) cal).length
        = cal.length := by
  induction L with
  | nil => intro cal; rfl
  | cons a L ih =>
    intro cal
    simp only [List.foldl_cons]
    rw [ih]
    split_ifs <;> simp

theorem fold_set_getD (v : ℚ) (L : List ℕ) :
    ∀ (cal : List ℚ) (b : ℕ), b < cal.length →
      (L.foldl (fun c x => if x < NUM_BUCKETS then c.set x v else c) cal).getD b 0
        = if b ∈ L ∧ b < NUM_BUCKETS then v else cal.getD b 0 := by
  induction L with
  | nil => intro cal b _; simp
  | cons a L ih =>
    intro cal b hb
    simp only [List.foldl_cons]
    have hlen : (if a < NUM_BUCKETS then cal.set a v else cal).length
        = cal.length := by split_ifs <;> simp
    rw [ih _ b (by rw [hlen]; exact hb)]
    have hstep : (if a < NUM_BUCKETS then cal.set a v else cal).getD b 0
        = if b = a ∧ b < NUM_BUCKETS then v else cal.getD b 0 := by
      by_cases hba : b = a ∧ b < NUM_BUCKETS
      · obtain ⟨rfl, hb10⟩ := hba
        rw [if_pos hb10, if_pos ⟨rfl, hb10⟩, List.getD_eq_getElem?_getD,
          List.getElem?_set_self hb, Option.getD_some]
      · rw [if_neg hba]
        by_cases h10 : a < NUM_BUCKETS
        · have hne : a ≠ b := by
            intro he
            exact hba ⟨he.symm, he ▸ h10⟩
          rw [if_pos h10, List.getD_eq_getElem?_getD, List.getElem?_set_ne hne,
            ← List.getD_eq_getElem?_getD]
        · rw [if_neg h10]
    by_cases hmem : b ∈ L ∧ b < NUM_BUCKETS
    · rw [if_pos hmem, if_pos ⟨List.mem_cons_of_mem a hmem.1, hmem.2⟩]
    · rw [if_neg hmem, hstep]
      by_cases hba : b = a ∧ b < NUM_BUCKETS
      · rw [if_pos hba, if_pos ⟨hba.1 ▸ List.mem_cons_self a L, hba.2⟩]
      · rw [if_neg hba, if_neg ?_]
        intro hx
        rcases List.mem_cons.mp hx.1 with h1 | h1
        · exact hba ⟨h1, hx.2⟩
        · exact hmem ⟨h1, hx.2⟩

theorem write_pool_length (cal : List ℚ) (p : Pool) :
    (write_pool cal p).length = cal.length := fold_set_length _ _ _

theorem write_back_length (pools : List Pool) :
    ∀ cal : List ℚ, (write_back cal pools).length = cal.length := by
  induction pools with
  | nil => intro cal; rfl
  | cons p rest ih =>
    intro cal
    show (write_back (write_pool cal p) rest).length = _
    rw [ih, write_pool_length]

theorem mem_range'_iff {b s n : ℕ} : b ∈ List.range' s n ↔ s ≤ b ∧ b < s + n := by
  rw [List.mem_range']
  constructor
  · rintro ⟨i, hi, rfl⟩
    omega
  · rintro ⟨h1, h2⟩
    exact ⟨b - s, by omega, by omega⟩

theorem write_pool_getD (cal : List ℚ) (p : Pool) (b : ℕ) (hb : b < cal.length) :
    (write_pool cal p).getD b 0
      = if p.lo ≤ b ∧ b ≤ p.hi ∧ b < NUM_BUCKETS
        then rclamp p.val 0.001 0.999 else cal.getD b 0 := by
  unfold write_pool
  rw [fold_set_getD _ _ _ _ hb]
  have hA : (b ∈ List.range' p.lo (p.hi + 1 - p.lo) ∧ b < NUM_BUCKETS)
      ↔ (p.lo ≤ b ∧ b ≤ p.hi ∧ b < NUM_BUCKETS) := by
    rw [mem_range'_iff]
    omega
  exact if_congr hA rfl rfl

/-- The calibrated value a pool list assigns to bucket `b` (the unique pool
whose range contains `b`, given `spans_from`). -/
def pool_val_at : List Pool → ℕ → ℚ
  | [], _ => 0
  | p :: rest, b =>
    if b ≤ p.hi then rclamp p.val 0.001 0.999 else pool_val_at rest b

theorem write_back_untouched (pools : List Pool) :
    ∀ (s : ℕ) (cal : List ℚ) (b : ℕ), spans_from s pools → b < s →
      (write_back cal pools).getD b 0 = cal.getD b 0 := by
  induction pools with
  | nil => intro s cal b _ _; rfl
  | cons p rest ih =>
    intro s cal b hs hb
    obtain ⟨hlo, hle, hhi, hrest⟩ := hs
    show (write_back (write_pool cal p) rest).getD b 0 = _
    rw [ih (p.hi + 1) _ b hrest (by omega)]
    by_cases hblen : b < cal.length
    · rw [write_pool_getD _ _ _ hblen, if_neg (by omega)]
    · rw [List.getD_eq_getElem?_getD, List.getElem?_eq_none
          (by rw [write_pool_length]; omega),
        List.getD_eq_getElem?_getD, List.getElem?_eq_none (by omega)]

theorem write_back_getD (pools : List Pool) :
    ∀ (s : ℕ) (cal : List ℚ) (b : ℕ), cal.length = NUM_BUCKETS →
      spans_from s pools → s ≤ b → b < NUM_BUCKETS →
      (write_back cal pools).getD b 0 = pool_val_at pools b := by
  induction pools with
  | nil =>
    intro s cal b _ hs hsb hb
    obtain rfl : s = NUM_BUCKETS := hs
    omega
  | cons p rest ih =>
    intro s cal b hcal hs hsb hb
    obtain ⟨hlo, hle, hhi, hrest⟩ := hs
    show (write_back (write_pool cal p) rest).getD b 0 = _
    by_cases hbp : b ≤ p.hi
    · rw [write_back_untouched rest (p.hi + 1) _ b hrest (by omega)]
      rw [write_pool_getD _ _ _ (by omega), if_pos ⟨by omega, hbp, hb⟩]
      rw [pool_val_at, if_pos hbp]
    · rw [pool_val_at, if_neg hbp]
      exact ih (p.hi + 1) _ b (by rw [write_pool_length, hcal]) hrest
        (by omega) hb

theorem pool_val_at_mono (pools : List Pool) :
    ∀ (s : ℕ) (b : ℕ), spans_from s pools →
      pools.Chain' (fun a b => a.val ≤ b.val) → s ≤ b →
      b + 1 < NUM_BUCKETS →
      pool_val_at pools b ≤ pool_val_at pools (b + 1) := by
  induction pools with
  | nil =>
    intro s b hs _ hsb hb
    obtain rfl : s = NUM_BUCKETS := hs
    omega
  | cons p rest ih =>
    intro s b hs hchain hsb hb
    obtain ⟨hlo, hle, hhi, hrest⟩ := hs
    by_cases h1 : b + 1 ≤ p.hi
    · rw [pool_val_at, pool_val_at, if_pos (by omega), if_pos h1]
    · by_cases h0 : b ≤ p.hi
      · have hbhi : b = p.hi := by omega
        rw [pool_val_at, pool_val_at, if_pos h0, if_neg h1]
        cases rest with
        | nil =>
          obtain hfin : p.hi + 1 = NUM_BUCKETS := hrest
          omega
        | cons q rest2 =>
          obtain ⟨hlo2, hle2, hhi2, hrest2⟩ := hrest
          rw [pool_val_at, if_pos (by omega)]
          exact rclamp_mono (by norm_num) (List.chain'_cons.mp hchain).1
      · rw [pool_val_at, pool_val_at, if_neg h0, if_neg h1]
        exact ih (p.hi + 1) b hrest hchain.tail (by omega) hb

theorem initial_pools_spans (buckets : List (ℕ × ℕ)) :
    spans_from 0 (initial_pools buckets) := by
  show spans_from 0 ((List.range NUM_BUCKETS).map _)
  norm_num [NUM_BUCKETS, List.range_succ, spans_from]

theorem initial_pools_length (buckets : List (ℕ × ℕ)) :
    (initial_pools buckets).length = NUM_BUCKETS := by
  simp [initial_pools]

/-- C6: for every bucket-count state (hence after every sequence of `record`
calls) and every ten-element calibrated array, the array produced by a run of
`run_pav` is monotone non-decreasing: `calibrated[i] ≤ calibrated[i+1]` for
every `i ≤ 8`. -/
theorem run_pav_monotone (buckets : List (ℕ × ℕ)) (cal : List ℚ)
    (hcal : cal.length = NUM_BUCKETS) :
    List.Chain' (· ≤ ·) (run_pav buckets cal) := by
  unfold run_pav
  have hspan : spans_from 0 (pav_loop 100 (initial_pools buckets)) :=
    pav_loop_spans 100 _ 0 (initial_pools_spans buckets)
  have hchain : (pav_loop 100 (initial_pools buckets)).Chain'
      (fun a b => a.val ≤ b.val) :=
    pav_loop_chain 100 _ (by rw [initial_pools_length]; norm_num [NUM_BUCKETS])
  have hlen : (write_back cal (pav_loop 100 (initial_pools buckets))).length
      = NUM_BUCKETS := by rw [write_back_length, hcal]
  rw [List.chain'_iff_get]
  intro i hi
  rw [hlen] at hi
  have hgd : ∀ (b : ℕ) (hb : b < NUM_BUCKETS),
      (write_back cal (pav_loop 100 (initial_pools buckets))).get
          ⟨b, by rw [hlen]; exact hb⟩
        = pool_val_at (pav_loop 100 (initial_pools buckets)) b := by
    intro b hb
    rw [← write_back_getD _ 0 cal b hcal hspan (Nat.zero_le b) hb]
    rw [List.getD_eq_getElem?_getD, List.get_eq_getElem,
      List.getElem?_eq_getElem (by rw [hlen]; exact hb), Option.getD_some]
  rw [hgd i (by omega), hgd (i + 1) (by omega)]
  exact pool_val_at_mono _ 0 i hspan hchain (Nat.zero_le i) (by omega)

/-- C6 witness: monotonicity of the PAV output for the fresh calibrator's
bucket and calibrated arrays. -/
theorem run_pav_monotone_witness :
    (Calibrator.new.calibrated.length = NUM_BUCKETS) ∧
    List.Chain' (· ≤ ·) (run_pav Calibrator.new.buckets Calibrator.new.calibrated) :=
  ⟨by decide, run_pav_monotone Calibrator.new.buckets Calibrator.new.calibrated
    (by decide)⟩

-- ═══════════════════════════════════════════════════════════════════════════
-- models/volatility.rs — rolling volatility / jump / regime estimator
-- ═══════════════════════════════════════════════════════════════════════════

/-- `EWMA_LAMBDA` (models/volatility.rs). -/
def EWMA_LAMBDA : ℚ := 0.94

/-- `JUMP_THRESHOLD` (models/volatility.rs). -/
def JUMP_THRESHOLD : ℚ := 3.0

/-- `JUMP_WINDOW` (models/volatility.rs). -/
def JUMP_WINDOW : ℕ := 300

/-- `SHORT_VOL_WINDOW` (models/volatility.rs). -/
def SHORT_VOL_WINDOW : ℕ := 30

/-- `LONG_VOL_WINDOW` (models/volatility.rs). -/
def LONG_VOL_WINDOW : ℕ := 300

/-- `REGIME_THRESHOLD` (models/volatility.rs). -/
def REGIME_THRESHOLD : ℚ := 1.5

/-- `MIN_SAMPLES` (models/volatility.rs). -/
def MIN_SAMPLES : ℕ := 20

/-- `VolRegime` (state.rs). -/
inductive VolRegime where
  | Low : VolRegime
  | High : VolRegime
deriving Repr, DecidableEq

/-- `VolatilityState` (state.rs). -/
structure VolatilityState where
  ewma_vol : ℚ
  jump_intensity : ℚ
  jump_mean : ℚ
  jump_var : ℚ
  student_t_nu : ℚ
  regime : VolRegime
  sample_count : ℕ
deriving Repr

/-- `VolatilityState::default` (state.rs). -/
def VolatilityState.default : VolatilityState :=
  { ewma_vol := 0.01, jump_intensity := 0.5, jump_mean := 0,
    jump_var := 0.0001, student_t_nu := 5, regime := VolRegime.Low,
    sample_count := 0 }

/-- `VolatilityEngine` (models/volatility.rs); the `VecDeque`s become lists
whose head is the deque front. -/
structure VolatilityEngine where
  returns : List ℚ
  jump_buffer : List ℚ
  prev_price : ℚ
  state : VolatilityState
deriving Repr

/-- `VolatilityEngine::new` (models/volatility.rs). -/
def VolatilityEngine.new : VolatilityEngine :=
  { returns := [], jump_buffer := [], prev_price := 0,
    state := VolatilityState.default }

/-- `variance_of_last` (models/volatility.rs): sample variance of the last
`window` elements. -/
def variance_of_last (data : List ℚ) (window : ℕ) : ℚ :=
  let n := min data.length window
  if n < 2 then 0
  else
    let tail := data.drop (data.length - n)
    let nf : ℚ := n
    let mean := tail.sum / nf
    let var_sum := (tail.map (fun d => (d - mean) * (d - mean))).sum
    var_sum / (nf - 1)

/-- `VolatilityEngine::update_jump_stats` (models/volatility.rs). -/
def VolatilityEngine.update_jump_stats (e : VolatilityEngine) :
    VolatilityEngine :=
  let sigma := e.state.ewma_vol
  let threshold := JUMP_THRESHOLD * sigma
  let jumps := e.jump_buffer.filter (fun r => |r| > threshold)
  let jump_count := jumps.length
  let jump_sum := jumps.sum
  let jump_sq_sum := (jumps.map (fun r => r * r)).sum
  let n : ℚ := e.jump_buffer.length
  let st1 :=
    if n > 0 then
      { e.state with jump_intensity :=
          ((jump_count : ℚ) / n) * (365.25 * 24 * 3600 / 2) }
    else e.state
  let st2 :=
    if jump_count > 0 then
      let jc : ℚ := jump_count
      let jump_mean := jump_sum / jc
      let jump_var :=
        if jump_count > 1 then jump_sq_sum / jc - jump_mean * jump_mean
        else sigma * sigma
      { st1 with jump_mean := jump_mean, jump_var := max jump_var 1e-12 }
    else st1
  { e with state := st2 }

/-- `VolatilityEngine::update_regime` (models/volatility.rs): recomputed only
once the long return window is full. -/
def VolatilityEngine.update_regime (e : VolatilityEngine) : VolatilityEngine :=
  if e.returns.length < LONG_VOL_WINDOW then e
  else
    let short_var := variance_of_last e.returns SHORT_VOL_WINDOW
    let long_var := variance_of_last e.returns LONG_VOL_WINDOW
    if long_var > 1e-16 then
      { e with state := { e.state with regime :=
          if short_var / long_var > REGIME_THRESHOLD then VolRegime.High
          else VolRegime.Low } }
    else e

/-- `VolatilityEngine::update_student_t_nu` (models/volatility.rs). -/
def VolatilityEngine.update_student_t_nu (e : VolatilityEngine) :
    VolatilityEngine :=
  if e.returns.length < 30 then e
  else
    let n : ℚ := e.returns.length
    let mean := e.returns.sum / n
    let m2 := (e.returns.map (fun r => (r - mean) * (r - mean))).sum / n
    let m4 := (e.returns.map
      (fun r => ((r - mean) * (r - mean)) * ((r - mean) * (r - mean)))).sum / n
    if m2 > 1e-16 then
      let kurtosis := m4 / (m2 * m2)
      let excess := kurtosis - 3
      if excess > 0.1 then
        { e with state := { e.state with
            student_t_nu := rclamp (4 + 6 / excess) 2.5 30 } }
      else
        { e with state := { e.state with student_t_nu := 30 } }
    else e

/-- `VolatilityEngine::update` (models/volatility.rs).  `lnFn` models
`f64::ln`, `sqrtFn` models `f64::sqrt`; the non-finiteness guards of the
source are vacuous in the rational model. -/
def VolatilityEngine.update (lnFn sqrtFn : ℚ → ℚ) (e : VolatilityEngine)
    (price : ℚ) : VolatilityEngine :=
  if price ≤ 0 then e
  else if e.prev_price ≤ 0 then { e with prev_price := price }
  else
    let log_return := lnFn (price / e.prev_price)
    let returns' :=
      (if e.returns.length ≥ LONG_VOL_WINDOW then e.returns.drop 1
       else e.returns) ++ [log_return]
    let jump_buffer' :=
      (if e.jump_buffer.length ≥ JUMP_WINDOW then e.jump_buffer.drop 1
       else e.jump_buffer) ++ [log_return]
    let r_sq := log_return * log_return
    let ewma1 := sqrtFn (EWMA_LAMBDA * e.state.ewma_vol * e.state.ewma_vol
      + (1 - EWMA_LAMBDA) * r_sq)
    let e1 : VolatilityEngine :=
      { returns := returns', jump_buffer := jump_buffer', prev_price := price,
        state := { e.state with
          sample_count := e.state.sample_count + 1,
          ewma_vol := rclamp ewma1 1e-8 1 } }
    if e1.state.sample_count < MIN_SAMPLES then e1
    else e1.update_jump_stats.update_regime.update_student_t_nu

theorem update_jump_stats_returns (e : VolatilityEngine) :
    e.update_jump_stats.returns = e.returns := rfl

theorem update_jump_stats_sample_count (e : VolatilityEngine) :
    e.update_jump_stats.state.sample_count = e.state.sample_count := by
  simp only [VolatilityEngine.update_jump_stats]
  split_ifs <;> rfl

theorem update_regime_sample_count (e : VolatilityEngine) :
    e.update_regime.state.sample_count = e.state.sample_count := by
  simp only [VolatilityEngine.update_regime]
  split_ifs <;> rfl

theorem update_student_t_nu_sample_count (e : VolatilityEngine) :
    e.update_student_t_nu.state.sample_count = e.state.sample_count := by
  simp only [VolatilityEngine.update_student_t_nu]
  split_ifs <;> rfl

theorem update_jump_stats_regime (e : VolatilityEngine) :
    e.update_jump_stats.state.regime = e.state.regime := by
  simp only [VolatilityEngine.update_jump_stats]
  split_ifs <;> rfl

theorem update_regime_returns (e : VolatilityEngine) :
    e.update_regime.returns = e.returns := by
  simp only [VolatilityEngine.update_regime]
  split_ifs <;> rfl

theorem update_student_t_nu_returns (e : VolatilityEngine) :
    e.update_student_t_nu.returns = e.returns := by
  simp only [VolatilityEngine.update_student_t_nu]
  split_ifs <;> rfl

theorem update_student_t_nu_regime (e : VolatilityEngine) :
    e.update_student_t_nu.state.regime = e.state.regime := by
  simp only [VolatilityEngine.update_student_t_nu]
  split_ifs <;> rfl

theorem update_regime_full (e : VolatilityEngine)
    (hlen : LONG_VOL_WINDOW ≤ e.returns.length)
    (hvar : variance_of_last e.returns LONG_VOL_WINDOW > 1e-16) :
    e.update_regime.state.regime =
      (if variance_of_last e.returns SHORT_VOL_WINDOW
            / variance_of_last e.returns LONG_VOL_WINDOW > REGIME_THRESHOLD
        then VolRegime.High else VolRegime.Low) := by
  simp only [VolatilityEngine.update_regime]
  rw [if_neg (by omega), if_pos hvar]

theorem update_regime_short (e : VolatilityEngine)
    (hlen : e.returns.length < LONG_VOL_WINDOW) :
    e.update_regime.state.regime = e.state.regime := by
  simp only [VolatilityEngine.update_regime]
  rw [if_pos hlen]

/-- A computable stand-in for `f64::ln` used in concrete runs (`x ↦ x − 1`);
none of the verified control-flow properties depends on the analytic values
of the logarithm. -/
def lnShift : ℚ → ℚ := fun x => x - 1

/-- The 30 alternating returns `±1/2` that fill the short window in the C8
counterexample run. -/
def volAlt30 : List ℚ :=
  [1/2, -(1/2), 1/2, -(1/2), 1/2, -(1/2), 1/2, -(1/2), 1/2, -(1/2),
   1/2, -(1/2), 1/2, -(1/2), 1/2, -(1/2), 1/2, -(1/2), 1/2, -(1/2),
   1/2, -(1/2), 1/2, -(1/2), 1/2, -(1/2), 1/2, -(1/2), 1/2, -(1/2)]

/-- The C8 counterexample engine: 49 stored returns (20 calm, then 29
alternating), one observation away from 50 samples, regime still `Low`. -/
def volC8_e49 : VolatilityEngine :=
  { returns := List.replicate 20 0 ++
      [1/2, -(1/2), 1/2, -(1/2), 1/2, -(1/2), 1/2, -(1/2), 1/2, -(1/2),
       1/2, -(1/2), 1/2, -(1/2), 1/2, -(1/2), 1/2, -(1/2), 1/2, -(1/2),
       1/2, -(1/2), 1/2, -(1/2), 1/2, -(1/2), 1/2, -(1/2), 1/2],
    jump_buffer := [], prev_price := 1,
    state := { VolatilityState.default with sample_count := 49 } }

/-- The post-update engine of the C8 counterexample. -/
def volC8_e50 : VolatilityEngine :=
  VolatilityEngine.update lnShift Rat.sqrt volC8_e49 (1/2)

/-- The stored (pre-statistics) engine on the C8 counterexample update. -/
def volC8_mid : VolatilityEngine :=
  { returns := List.replicate 20 0 ++ volAlt30,
    jump_buffer := [-(1/2)], prev_price := 1/2,
    state := { volC8_e49.state with
      sample_count := 50,
      ewma_vol := rclamp (Rat.sqrt (7547 / 500000)) (1 / 100000000) 1 } }

theorem volC8_e50_eq :
    volC8_e50
      = volC8_mid.update_jump_stats.update_regime.update_student_t_nu := by
  have h1 : ¬ ((1 : ℚ)/2 ≤ 0) := by norm_num
  have h2 : ¬ (volC8_e49.prev_price ≤ 0) := by norm_num [volC8_e49]
  simp only [volC8_e50, VolatilityEngine.update, if_neg h1, if_neg h2]
  rw [if_neg (by norm_num [volC8_e49, MIN_SAMPLES])]
  norm_num [volC8_e49, volC8_mid, volAlt30, VolatilityState.default,
    LONG_VOL_WINDOW, JUMP_WINDOW, lnShift, EWMA_LAMBDA]

/-- C8 counterexample: after the 50th observation (`sample_count = 50 ≥
MIN_SAMPLES`) the short/long variance ratio of the stored returns is
`49/29 > 1.5`, so the claim requires `regime = High` on this update — but
`update_regime` returns early while fewer than `LONG_VOL_WINDOW = 300`
returns are stored, and the regime stays `Low`. -/
theorem vol_update_regime_counterexample :
    volC8_e50.state.sample_count = 50 ∧
    MIN_SAMPLES ≤ volC8_e50.state.sample_count ∧
    variance_of_last volC8_e50.returns SHORT_VOL_WINDOW
        / variance_of_last volC8_e50.returns LONG_VOL_WINDOW
      > REGIME_THRESHOLD ∧
    volC8_e50.state.regime = VolRegime.Low := by
  have hret : volC8_e50.returns = List.replicate 20 0 ++ volAlt30 := by
    rw [volC8_e50_eq, update_student_t_nu_returns, update_regime_returns,
      update_jump_stats_returns]
    rfl
  have hlen : volC8_e50.returns.length = 50 := by
    rw [hret]
    norm_num [volAlt30]
  have hcount : volC8_e50.state.sample_count = 50 := by
    rw [volC8_e50_eq, update_student_t_nu_sample_count,
      update_regime_sample_count, update_jump_stats_sample_count]
    rfl
  refine ⟨hcount, by rw [hcount]; norm_num [MIN_SAMPLES], ?_, ?_⟩
  · rw [hret]
    have hshort : variance_of_last (List.replicate 20 0 ++ volAlt30)
        SHORT_VOL_WINDOW = 15/58 := by
      simp only [variance_of_last, SHORT_VOL_WINDOW]
      norm_num [volAlt30, List.drop_append_of_le_length, List.drop_replicate]
    have hlong : variance_of_last (List.replicate 20 0 ++ volAlt30)
        LONG_VOL_WINDOW = 15/98 := by
      simp only [variance_of_last, LONG_VOL_WINDOW]
      norm_num [volAlt30, List.sum_append, List.map_append]
    rw [hshort, hlong]
    norm_num [REGIME_THRESHOLD]
  · rw [volC8_e50_eq, update_student_t_nu_regime]
    rw [update_regime_short _ (by
      rw [update_jump_stats_returns]
      norm_num [volC8_mid, volAlt30, LONG_VOL_WINDOW])]
    rw [update_jump_stats_regime]
    rfl

/-- C8 (amended): on every valid price update (`price > 0`, a previous price
is set) that brings `sample_count` to at least `MIN_SAMPLES = 20`, the regime
flag is recomputed **only when the long return window is full** — at least
`LONG_VOL_WINDOW = 300` stored returns — **and** the long-window variance
exceeds `1e-16`; in that case it is set to `High` if
`var(short window) / var(long window) > 1.5` and to `Low` otherwise.  (With a
partially filled window — in particular on the update that first reaches 20
samples — the flag is left unchanged.) -/
theorem vol_update_regime_spec (lnFn sqrtFn : ℚ → ℚ) (e : VolatilityEngine)
    (price : ℚ) (hp : 0 < price) (hprev : 0 < e.prev_price)
    (hcount : MIN_SAMPLES ≤ e.state.sample_count + 1)
    (hlen : LONG_VOL_WINDOW
      ≤ (VolatilityEngine.update lnFn sqrtFn e price).returns.length)
    (hvar : variance_of_last
        (VolatilityEngine.update lnFn sqrtFn e price).returns LONG_VOL_WINDOW
      > 1e-16) :
    (VolatilityEngine.update lnFn sqrtFn e price).state.regime =
      (if variance_of_last
            (VolatilityEngine.update lnFn sqrtFn e price).returns
            SHORT_VOL_WINDOW
          / variance_of_last
            (VolatilityEngine.update lnFn sqrtFn e price).returns
            LONG_VOL_WINDOW
          > REGIME_THRESHOLD
        then VolRegime.High else VolRegime.Low) := by
  have hp' : ¬ price ≤ 0 := not_le.mpr hp
  have hprev' : ¬ e.prev_price ≤ 0 := not_le.mpr hprev
  simp only [VolatilityEngine.update, if_neg hp', if_neg hprev'] at hlen hvar ⊢
  rw [if_neg (by omega)] at hlen hvar ⊢
  rw [update_student_t_nu_returns, update_regime_returns,
    update_jump_stats_returns] at hlen hvar
  rw [update_student_t_nu_regime, update_student_t_nu_returns,
    update_regime_returns]
  rw [update_regime_full _ (by rw [update_jump_stats_returns]; exact hlen)
    (by rw [update_jump_stats_returns]; exact hvar)]

/-- The C8 witness engine: 299 calm returns stored, one observation away
from a full long window. -/
def volWitnessEngine : VolatilityEngine :=
  { returns := List.replicate 299 0, jump_buffer := [], prev_price := 1,
    state := { VolatilityState.default with sample_count := 299 } }

theorem volWitness_returns :
    (VolatilityEngine.update lnShift Rat.sqrt volWitnessEngine 2).returns
      = List.replicate 299 0 ++ [1] := by
  have h1 : ¬ ((2 : ℚ) ≤ 0) := by norm_num
  have h2 : ¬ (volWitnessEngine.prev_price ≤ 0) := by
    norm_num [volWitnessEngine]
  simp only [VolatilityEngine.update, if_neg h1, if_neg h2]
  rw [if_neg (by
    norm_num [volWitnessEngine, MIN_SAMPLES, VolatilityState.default])]
  rw [update_student_t_nu_returns, update_regime_returns,
    update_jump_stats_returns]
  norm_num [volWitnessEngine, LONG_VOL_WINDOW, lnShift]

set_option maxRecDepth 8000 in
theorem volWitness_long :
    variance_of_last (List.replicate 299 (0:ℚ) ++ [1]) LONG_VOL_WINDOW
      = 1/300 := by
  simp only [variance_of_last, LONG_VOL_WINDOW]
  norm_num [List.sum_append, List.sum_replicate, List.map_append,
    List.map_replicate, smul_eq_mul]

set_option maxRecDepth 8000 in
theorem volWitness_short :
    variance_of_last (List.replicate 299 (0:ℚ) ++ [1]) SHORT_VOL_WINDOW
      = 1/30 := by
  have hl : (List.replicate 299 (0:ℚ) ++ [1]).length = 300 := by norm_num
  simp only [variance_of_last, SHORT_VOL_WINDOW, hl]
  rw [show (300 ⊓ 30 : ℕ) = 30 from by norm_num,
    show (300 - 30 : ℕ) = 270 from by norm_num]
  rw [List.drop_append_of_le_length (by norm_num), List.drop_replicate]
  norm_num [List.sum_append, List.sum_replicate, List.map_append,
    List.map_replicate, smul_eq_mul]

/-- C8 witness: the amended statement instantiated at a full long window —
after the 300th return (a unit spike after 299 calm returns) the regime is
recomputed and set to `High` since the variance ratio is `10 > 1.5`. -/
theorem vol_update_regime_spec_witness :
    (0 : ℚ) < 2 ∧ 0 < volWitnessEngine.prev_price ∧
    MIN_SAMPLES ≤ volWitnessEngine.state.sample_count + 1 ∧
    LONG_VOL_WINDOW
      ≤ (VolatilityEngine.update lnShift Rat.sqrt volWitnessEngine 2).returns.length ∧
    variance_of_last
        (VolatilityEngine.update lnShift Rat.sqrt volWitnessEngine 2).returns
        LONG_VOL_WINDOW > 1e-16 ∧
    (VolatilityEngine.update lnShift Rat.sqrt volWitnessEngine 2).state.regime
      = (if variance_of_last
            (VolatilityEngine.update lnShift Rat.sqrt volWitnessEngine 2).returns
            SHORT_VOL_WINDOW
          / variance_of_last
            (VolatilityEngine.update lnShift Rat.sqrt volWitnessEngine 2).returns
            LONG_VOL_WINDOW
          > REGIME_THRESHOLD
        then VolRegime.High else VolRegime.Low) := by
  have hret := volWitness_returns
  have hlen : LONG_VOL_WINDOW
      ≤ (VolatilityEngine.update lnShift Rat.sqrt volWitnessEngine 2).returns.length := by
    rw [hret]
    norm_num [LONG_VOL_WINDOW]
  have hvar : variance_of_last
      (VolatilityEngine.update lnShift Rat.sqrt volWitnessEngine 2).returns
      LONG_VOL_WINDOW > 1e-16 := by
    rw [hret, volWitness_long]
    norm_num
  exact ⟨by norm_num, by norm_num [volWitnessEngine],
    by norm_num [volWitnessEngine, MIN_SAMPLES, VolatilityState.default],
    hlen, hvar,
    vol_update_regime_spec lnShift Rat.sqrt volWitnessEngine 2 (by norm_num)
      (by norm_num [volWitnessEngine])
      (by norm_num [volWitnessEngine, MIN_SAMPLES, VolatilityState.default])
      hlen hvar⟩

-- ═══════════════════════════════════════════════════════════════════════════
-- state.rs / db.rs / config.rs — engine data model
-- ═══════════════════════════════════════════════════════════════════════════

/-- `OpenPosition` (state.rs). -/
structure OpenPosition where
  trade_id : String
  market_ticker : String
  side : String
  entry_price : ℚ
  contracts : ℚ
  model_probability : ℚ
  entry_tick : ℕ
  entry_btc_price : ℚ
  peak_unrealized : ℚ
  leg : ℕ
deriving Repr, DecidableEq, Inhabited

/-- `ModelState` (state.rs). -/
structure ModelState where
  name : String
  probability : ℚ
  ev : ℚ
  kelly_size : ℚ
  cumulative_pnl : ℚ
  total_trades : ℤ
  winning_trades : ℤ
  sharpe : ℚ
  max_drawdown : ℚ
  brier_score : ℚ
  daily_pnl : ℚ
  current_exposure : ℚ
  peak_equity : ℚ
  trade_returns : List ℚ
  beta_alpha : ℚ
  beta_beta : ℚ
  brier_sum : ℚ
  brier_count : ℤ
  unrealized_pnl : ℚ
  open_positions : List OpenPosition
deriving Repr, Inhabited

/-- `ModelState::new` (state.rs): priors `α = β = 20`, everything else zero. -/
def ModelState.new (name : String) : ModelState :=
  { name := name, probability := 0, ev := 0, kelly_size := 0,
    cumulative_pnl := 0, total_trades := 0, winning_trades := 0, sharpe := 0,
    max_drawdown := 0, brier_score := 0, daily_pnl := 0, current_exposure := 0,
    peak_equity := 0, trade_returns := [], beta_alpha := 20, beta_beta := 20,
    brier_sum := 0, brier_count := 0, unrealized_pnl := 0,
    open_positions := [] }

/-- `ModelState::win_rate` (state.rs). -/
def ModelState.win_rate (s : ModelState) : ℚ :=
  if s.total_trades = 0 then 0
  else (s.winning_trades : ℚ) / (s.total_trades : ℚ)

/-- `ModelState::compute_sharpe` (state.rs); `sqrtFn` models `f64::sqrt`. -/
def ModelState.compute_sharpe (sqrtFn : ℚ → ℚ) (s : ModelState) : ModelState :=
  let n := s.trade_returns.length
  if n < 2 then { s with sharpe := 0 }
  else
    let nf : ℚ := n
    let mean := s.trade_returns.sum / nf
    let var := (s.trade_returns.map (fun r => (r - mean) * (r - mean))).sum
      / (nf - 1)
    let std := sqrtFn var
    if std < 1e-12 then { s with sharpe := 0 }
    else
      let annualization := sqrtFn (96 * 365)
      { s with sharpe := mean / std * annualization }

/-- `ModelState::compute_brier` (state.rs). -/
def ModelState.compute_brier (s : ModelState) : ModelState :=
  { s with brier_score :=
      if s.brier_count = 0 then 0 else s.brier_sum / (s.brier_count : ℚ) }

/-- `ModelState::record_return` (state.rs): ring of at most 500 returns. -/
def ModelState.record_return (s : ModelState) (ret : ℚ) : ModelState :=
  { s with trade_returns :=
      (if s.trade_returns.length ≥ 500 then s.trade_returns.drop 1
       else s.trade_returns) ++ [ret] }

/-- `ModelState::update_drawdown` (state.rs). -/
def ModelState.update_drawdown (s : ModelState) : ModelState :=
  let s1 := if s.cumulative_pnl > s.peak_equity
    then { s with peak_equity := s.cumulative_pnl } else s
  let dd := s1.peak_equity - s1.cumulative_pnl
  if dd > s1.max_drawdown then { s1 with max_drawdown := dd } else s1

/-- `ActiveMarket` (state.rs).  The venue's dollar-fraction price strings are
modelled as parsed values: `none` covers both an absent field and an
unparseable string (the source's `parse().ok()` chain), so the source's
`unwrap_or(0.0)` becomes `getD 0`. -/
structure ActiveMarket where
  ticker : String
  event_ticker : String
  series_ticker : String
  strike : Option ℚ
  yes_bid : Option ℚ
  yes_ask : Option ℚ
  no_bid : Option ℚ
  no_ask : Option ℚ
  last_price : Option ℚ
  close_time : String
  expiration_time : String
  status : String
  result : Option String
deriving Repr

/-- `AppConfig` (config.rs): the engine-relevant fields (credentials, URLs
and the server port are bootstrap-only and omitted). -/
structure AppConfig where
  btc_series_ticker : String
  fractional_kelly : ℚ
  max_position_size : ℚ
  ev_threshold : ℚ
  max_daily_drawdown : ℚ
deriving Repr

/-- `TradeRow` (db.rs). -/
structure TradeRow where
  id : String
  model_name : String
  market_ticker : String
  side : String
  action : String
  entry_price : ℚ
  contracts : ℚ
  model_probability : ℚ
  ev : ℚ
  kelly_fraction : ℚ
  outcome : Option String
  pnl : Option ℚ
  fees_estimate : ℚ
  entry_time : String
  settle_time : Option String
deriving Repr

/-- `RiskCheck` (risk/limits.rs). -/
inductive RiskCheck where
  | Allowed : RiskCheck
  | Blocked : String → RiskCheck
deriving Repr, DecidableEq

/-- `RiskCheck::is_allowed` (risk/limits.rs). -/
def RiskCheck.is_allowed : RiskCheck → Bool
  | .Allowed => true
  | .Blocked _ => false

/-- `check_risk_limits` (risk/limits.rs). -/
def check_risk_limits (model : ModelState) (vol_state : VolatilityState)
    (proposed_contracts proposed_price max_daily_drawdown max_position : ℚ) :
    RiskCheck :=
  if model.daily_pnl < -max_daily_drawdown then
    .Blocked "daily drawdown limit breached"
  else
    let new_exposure := model.current_exposure
      + proposed_contracts * proposed_price
    if new_exposure > max_position then
      .Blocked "max position size exceeded"
    else if vol_state.regime = VolRegime.High
        ∧ model.max_drawdown > max_daily_drawdown * 0.5 then
      .Blocked "vol spike + elevated drawdown"
    else if proposed_contracts < 0.01 then
      .Blocked "trade size too small"
    else if proposed_price ≤ 0 ∨ proposed_price ≥ 1 then
      .Blocked "invalid contract price"
    else
      .Allowed

/-- `Display for VolRegime` (state.rs). -/
def VolRegime.display : VolRegime → String
  | .Low => "low"
  | .High => "high"

/-- `WsMessage` (state.rs): the variants emitted by the simulator. -/
inductive WsMessage where
  | NewTrade (model side action : String) (price contracts ev : ℚ)
      (timestamp : String)
  | TradeExited (model trade_id side : String)
      (entry_price exit_price contracts pnl : ℚ) (reason timestamp : String)
  | TradeSettled (model trade_id outcome : String) (pnl : ℚ)
      (timestamp : String)
  | ModelUpdate (model : String)
      (probability ev kelly_size cumulative_pnl unrealized_pnl total_pnl : ℚ)
      (total_trades winning_trades : ℤ)
      (sharpe max_drawdown brier_score daily_pnl current_exposure : ℚ)
      (open_position_count : ℕ)
  | MetricsUpdate (model : String) (sharpe max_drawdown win_rate brier : ℚ)
      (total_trades : ℤ) (daily_pnl : ℚ)
deriving Repr

/-- `DbCommand` (state.rs): the variants emitted by the simulator. -/
inductive DbCommand where
  | InsertTrade (id model_name market_ticker side action : String)
      (entry_price contracts model_probability ev kelly_fraction
        fees_estimate : ℚ) (entry_time : String)
  | SettleTrade (trade_id outcome : String) (pnl : ℚ) (settle_time : String)
  | ExitTrade (trade_id : String) (exit_price pnl : ℚ)
      (reason exit_time : String)
  | InsertSnapshot (model_name timestamp : String) (btc_price : ℚ)
      (market_ticker : Option String) (probability ev kelly_size : Option ℚ)
      (cumulative_pnl : ℚ) (volatility : Option ℚ) (regime : Option String)
  | UpdateRiskState (model_name : String)
      (exposure daily_pnl max_drawdown peak_equity : ℚ)
      (total_trades winning_trades : ℤ)
deriving Repr

/-- `EngineAction` (paper/simulator.rs). -/
inductive EngineAction where
  | PlaceTrade (id model_name market_ticker side action : String)
      (price contracts probability ev kelly_fraction : ℚ)
  | ExitTrade (trade_id model_name : String) (exit_price pnl : ℚ)
      (reason : String)
  | SettleTrade (trade_id model_name outcome : String) (pnl : ℚ)
  | BroadcastUpdate (msg : WsMessage)
  | DbWrite (cmd : DbCommand)
deriving Repr

-- ═══════════════════════════════════════════════════════════════════════════
-- paper/simulator.rs — the engine decision loop
-- ═══════════════════════════════════════════════════════════════════════════

/-- `STRIKE_CROSS_BUFFER` (paper/simulator.rs). -/
def STRIKE_CROSS_BUFFER : ℚ := 25.0

/-- `SCALE_IN_MOVE` (paper/simulator.rs). -/
def SCALE_IN_MOVE : ℚ := 75.0

/-- `MAX_LEGS` (paper/simulator.rs). -/
def MAX_LEGS : ℕ := 3

/-- `TRAILING_STOP_PCT` (paper/simulator.rs). -/
def TRAILING_STOP_PCT : ℚ := 0.50

/-- `PARTIAL_TAKE_PROFIT_PCT` (paper/simulator.rs). -/
def PARTIAL_TAKE_PROFIT_PCT : ℚ := 0.40

/-- `FULL_TAKE_PROFIT_PCT` (paper/simulator.rs). -/
def FULL_TAKE_PROFIT_PCT : ℚ := 0.80

/-- `UNCERTAIN_EXIT_SECONDS` (paper/simulator.rs). -/
def UNCERTAIN_EXIT_SECONDS : ℚ := 240.0

/-- `RESOLUTION_HOLD_DISTANCE` (paper/simulator.rs). -/
def RESOLUTION_HOLD_DISTANCE : ℚ := 200.0

/-- `RESOLUTION_HOLD_SECONDS` (paper/simulator.rs). -/
def RESOLUTION_HOLD_SECONDS : ℚ := 120.0

/-- `MIN_HOLD_TICKS` (paper/simulator.rs). -/
def MIN_HOLD_TICKS : ℕ := 5

/-- `MIN_ENTRY_TTL` (paper/simulator.rs). -/
def MIN_ENTRY_TTL : ℚ := 300.0

/-- `HARD_STOP_LOSS_PCT` (paper/simulator.rs). -/
def HARD_STOP_LOSS_PCT : ℚ := 0.70

/-- The per-tick market context of `run_tick`, shared by the four phases:
the parsed bid/ask, the positive strike, the spot price, the TTL, the tick
counter and the timestamp string. -/
structure TickCtx where
  market_ticker : String
  yes_ask : ℚ
  yes_bid : ℚ
  strike : ℚ
  btc_price : ℚ
  ttl_seconds : ℚ
  tick_counter : ℕ
  timestamp : String
deriving Repr

/-- What Phase 2 of `run_tick` decides for one open position: leave it, mark
it for a full exit with a reason, or mark it for a partial exit. -/
inductive ExitMark where
  | keep : ExitMark
  | full : String → ExitMark
  | part : ExitMark
deriving Repr, DecidableEq

/-- The Phase-2 loop body of `run_tick` (paper/simulator.rs lines 216–313):
the six priority-ordered exit rules, with rule 1 (strike crossover) evaluated
before the `hold_ticks < MIN_HOLD_TICKS` early-`continue`.  `hold_ticks` uses
`Nat` subtraction, which coincides with the source's `saturating_sub`. -/
def exit_decision (ctx : TickCtx) (pos : OpenPosition) : ExitMark :=
  let current_bid := if pos.side = "yes" then ctx.yes_bid else 1 - ctx.yes_ask
  let entry_cost := pos.entry_price * pos.contracts
  let unrealized := (current_bid - pos.entry_price) * pos.contracts
  let hold_ticks := ctx.tick_counter - pos.entry_tick
  let is_new := hold_ticks < MIN_HOLD_TICKS
  let position_is_yes := pos.side = "yes"
  let btc_against_us :=
    if position_is_yes then ctx.btc_price < ctx.strike - STRIKE_CROSS_BUFFER
    else ctx.btc_price > ctx.strike + STRIKE_CROSS_BUFFER
  if btc_against_us then .full "strike_cross"
  else if is_new then .keep
  else if entry_cost > 0 ∧ unrealized < -(entry_cost * HARD_STOP_LOSS_PCT) then
    .full "stop_loss"
  else if pos.peak_unrealized > entry_cost * 0.10
      ∧ unrealized < pos.peak_unrealized * (1 - TRAILING_STOP_PCT) then
    .full "trailing_stop"
  else if entry_cost > 0 ∧ unrealized > entry_cost * FULL_TAKE_PROFIT_PCT then
    .full "take_profit"
  else if entry_cost > 0 ∧ unrealized > entry_cost * PARTIAL_TAKE_PROFIT_PCT
      ∧ pos.contracts > 1.5 ∧ pos.leg = 0 then
    .part
  else if ctx.ttl_seconds < UNCERTAIN_EXIT_SECONDS then
    let on_right_side := if position_is_yes then ctx.btc_price > ctx.strike
      else ctx.btc_price < ctx.strike
    let strongly_winning := |ctx.btc_price - ctx.strike| > RESOLUTION_HOLD_DISTANCE
    if ctx.ttl_seconds < RESOLUTION_HOLD_SECONDS ∧ on_right_side
        ∧ strongly_winning then .keep
    else if ¬ on_right_side ∨ ¬ strongly_winning then .full "time_exit"
    else .keep
  else .keep

/-- The Phase-2 scan of `run_tick`: `positions_to_exit`/`exit_reasons`
(zipped) and `partial_exit_indices`, collected in position order. -/
def phase2_marks (ctx : TickCtx) (positions : List OpenPosition) :
    List (ℕ × String) × List ℕ :=
  positions.enum.foldl
    (fun acc ip =>
      match exit_decision ctx ip.2 with
      | .full r => (acc.1 ++ [(ip.1, r)], acc.2)
      | .part => (acc.1, acc.2 ++ [ip.1])
      | .keep => acc)
    ([], [])

/-- `PartialExitData` (paper/simulator.rs). -/
structure PartialExitData where
  pos_idx : ℕ
  exit_contracts : ℚ
  exit_price : ℚ
  entry_price : ℚ
  fee : ℚ
  pnl : ℚ
  trade_id : String
  side : String
deriving Repr

/-- The partial-exit collection of `run_tick`: reversed indices, filtered
against the live position list, selling `⌊contracts·0.5⌋` (at least 1,
strictly less than the position). -/
def collect_partial_exits (ctx : TickCtx) (positions : List OpenPosition)
    (idxs : List ℕ) : List PartialExitData :=
  idxs.reverse.filterMap (fun pos_idx =>
    if pos_idx ≥ positions.length then none
    else
      let pos := positions.getD pos_idx default
      let exit_contracts := max ((⌊pos.contracts * 0.5⌋ : ℤ) : ℚ) 1
      if exit_contracts ≥ pos.contracts then none
      else
        let exit_price := if pos.side = "yes" then max ctx.yes_bid 0.01
          else max (1 - ctx.yes_ask) 0.01
        let fee := exit_price * exit_contracts * 0.02
        let pnl := (exit_price - pos.entry_price) * exit_contracts - fee
        some { pos_idx := pos_idx, exit_contracts := exit_contracts,
               exit_price := exit_price, entry_price := pos.entry_price,
               fee := fee, pnl := pnl, trade_id := pos.trade_id,
               side := pos.side })

/-- The `for pe in partial_exits` body of `run_tick`. -/
def apply_partial_exit (sqrtFn : ℚ → ℚ) (model_name : String) (ctx : TickCtx)
    (prob : ℚ) (acc : ModelState × List EngineAction) (pe : PartialExitData) :
    ModelState × List EngineAction :=
  let state := acc.1
  let state := { state with
    open_positions := state.open_positions.modify
      (fun pos => { pos with contracts := pos.contracts - pe.exit_contracts })
      pe.pos_idx,
    cumulative_pnl := state.cumulative_pnl + pe.pnl,
    daily_pnl := state.daily_pnl + pe.pnl }
  let state := { state with
    current_exposure :=
      max (state.current_exposure - pe.entry_price * pe.exit_contracts) 0 }
  let state := if pe.pnl > 0 then
      { state with
        winning_trades := state.winning_trades + 1,
        beta_alpha := state.beta_alpha + 1 }
    else state
  let ret := pe.pnl / max (pe.entry_price * pe.exit_contracts) 0.01
  let state := ((state.record_return ret).update_drawdown).compute_sharpe sqrtFn
  (state, acc.2 ++
    [EngineAction.BroadcastUpdate (WsMessage.NewTrade model_name pe.side
        "partial sell" pe.exit_price pe.exit_contracts pe.pnl ctx.timestamp),
     EngineAction.DbWrite (DbCommand.InsertTrade (pe.trade_id ++ "-partial")
        model_name ctx.market_ticker pe.side "sell" pe.exit_price
        pe.exit_contracts prob pe.pnl 0 pe.fee ctx.timestamp)])

/-- The full-exit execution body of `run_tick` (one `remove(pos_idx)` step;
invoked over the marks in reverse index order). -/
def apply_full_exit (sqrtFn : ℚ → ℚ) (model_name : String) (ctx : TickCtx)
    (acc : ModelState × List EngineAction) (mark : ℕ × String) :
    ModelState × List EngineAction :=
  let state := acc.1
  let pos_idx := mark.1
  let reason := mark.2
  if pos_idx ≥ state.open_positions.length then acc
  else
    let pos := state.open_positions.getD pos_idx default
    let exit_price := if pos.side = "yes" then max ctx.yes_bid 0.01
      else max (1 - ctx.yes_ask) 0.01
    let fee := exit_price * pos.contracts * 0.02
    let pnl := (exit_price - pos.entry_price) * pos.contracts - fee
    let state := { state with
      open_positions := state.open_positions.eraseIdx pos_idx,
      cumulative_pnl := state.cumulative_pnl + pnl,
      daily_pnl := state.daily_pnl + pnl,
      current_exposure :=
        max (state.current_exposure - pos.entry_price * pos.contracts) 0 }
    let state := if pnl > 0 then
        { state with
          winning_trades := state.winning_trades + 1,
          beta_alpha := state.beta_alpha + 1 }
      else { state with beta_beta := state.beta_beta + 1 }
    let ret := pnl / max (pos.entry_price * pos.contracts) 0.01
    let state := ((state.record_return ret).update_drawdown).compute_sharpe sqrtFn
    (state, acc.2 ++
      [EngineAction.ExitTrade pos.trade_id model_name exit_price pnl reason,
       EngineAction.DbWrite (DbCommand.ExitTrade pos.trade_id exit_price pnl
          reason ctx.timestamp),
       EngineAction.BroadcastUpdate (WsMessage.TradeExited model_name
          pos.trade_id pos.side pos.entry_price exit_price pos.contracts pnl
          reason ctx.timestamp),
       EngineAction.BroadcastUpdate (WsMessage.NewTrade model_name pos.side
          ("sell (" ++ reason ++ ")") exit_price pos.contracts pnl
          ctx.timestamp)])

/-- The mark-to-market of one position list (used for Phase 1 and the two
unrealized-P/L recomputations of `run_tick`). -/
def positions_unrealized (ctx : TickCtx) (positions : List OpenPosition) : ℚ :=
  (positions.map (fun pos =>
    let bid := if pos.side = "yes" then ctx.yes_bid else 1 - ctx.yes_ask
    (bid - pos.entry_price) * pos.contracts)).sum

/-- Phase 3 of `run_tick` (the scale-in block), operating on the post-exit
state and the accumulated actions. -/
def phase3_scale_in (_sqrtFn : ℚ → ℚ) (uuid model_name : String) (prob : ℚ)
    (ev_result : EvResult) (kelly_result : KellyResult)
    (vol_state : VolatilityState) (config : AppConfig) (ctx : TickCtx)
    (acc : ModelState × List EngineAction) : ModelState × List EngineAction :=
  let state := acc.1
  let actions := acc.2
  match state.open_positions with
  | [] => (state, actions)
  | first_pos :: _ =>
    if ctx.ttl_seconds > MIN_ENTRY_TTL then
      let current_leg_count :=
        ((state.open_positions.map (fun p : OpenPosition => p.leg)).max?).getD 0
      if current_leg_count < MAX_LEGS - 1 then
        let btc_move_since_entry := ctx.btc_price - first_pos.entry_btc_price
        let btc_moved_in_favor := if first_pos.side = "yes"
          then btc_move_since_entry > SCALE_IN_MOVE
          else btc_move_since_entry < -SCALE_IN_MOVE
        if btc_moved_in_favor ∧ state.unrealized_pnl > 0
            ∧ ev_result.is_signal then
          let scale_side := first_pos.side
          let scale_price := if scale_side = "yes" then ctx.yes_ask
            else 1 - ctx.yes_ask
          let scale_contracts : ℚ := 1
          let risk := check_risk_limits state vol_state scale_contracts
            scale_price config.max_daily_drawdown config.max_position_size
          if risk.is_allowed then
            let side_str := if scale_side = "yes" then "yes" else "no"
            let state := { state with
              open_positions := state.open_positions ++
                [({ trade_id := uuid, market_ticker := ctx.market_ticker,
                    side := scale_side, entry_price := scale_price,
                    contracts := scale_contracts, model_probability := prob,
                    entry_tick := ctx.tick_counter,
                    entry_btc_price := ctx.btc_price,
                    peak_unrealized := 0,
                    leg := current_leg_count + 1 } : OpenPosition)],
              current_exposure := state.current_exposure
                + scale_contracts * scale_price,
              total_trades := state.total_trades + 1 }
            (state, actions ++
              [EngineAction.PlaceTrade uuid model_name ctx.market_ticker
                  side_str "scale_in" scale_price scale_contracts prob
                  ev_result.ev kelly_result.robust_fraction,
               EngineAction.DbWrite (DbCommand.InsertTrade uuid model_name
                  ctx.market_ticker side_str "scale_in" scale_price
                  scale_contracts prob ev_result.ev
                  kelly_result.robust_fraction
                  (scale_price * scale_contracts * 0.02) ctx.timestamp),
               EngineAction.BroadcastUpdate (WsMessage.NewTrade model_name
                  side_str "scale in" scale_price scale_contracts
                  ev_result.ev ctx.timestamp)])
          else (state, actions)
        else (state, actions)
      else (state, actions)
    else (state, actions)

/-- Phase 4 of `run_tick` (the new-entry block). -/
def phase4_new_entry (_sqrtFn : ℚ → ℚ) (uuid model_name : String) (prob : ℚ)
    (ev_result : EvResult) (kelly_result : KellyResult) (paper_contracts : ℚ)
    (vol_state : VolatilityState) (config : AppConfig) (ctx : TickCtx)
    (acc : ModelState × List EngineAction) : ModelState × List EngineAction :=
  let state := acc.1
  let actions := acc.2
  let price := if ev_result.buy_yes then ctx.yes_ask else 1 - ctx.yes_ask
  let has_position := ¬ state.open_positions.isEmpty
  if ev_result.is_signal ∧ paper_contracts > 0 ∧ ¬ has_position
      ∧ ctx.ttl_seconds > MIN_ENTRY_TTL then
    let risk := check_risk_limits state vol_state paper_contracts price
      config.max_daily_drawdown config.max_position_size
    if risk.is_allowed then
      let side := if ev_result.buy_yes then "yes" else "no"
      let state := { state with
        open_positions := state.open_positions ++
          [({ trade_id := uuid, market_ticker := ctx.market_ticker,
              side := side, entry_price := price,
              contracts := paper_contracts, model_probability := prob,
              entry_tick := ctx.tick_counter,
              entry_btc_price := ctx.btc_price,
              peak_unrealized := 0, leg := 0 } : OpenPosition)],
        current_exposure := state.current_exposure
          + paper_contracts * price,
        total_trades := state.total_trades + 1 }
      (state, actions ++
        [EngineAction.PlaceTrade uuid model_name ctx.market_ticker side
            "buy" price paper_contracts prob ev_result.ev
            kelly_result.robust_fraction,
         EngineAction.DbWrite (DbCommand.InsertTrade uuid model_name
            ctx.market_ticker side "buy" price paper_contracts prob
            ev_result.ev kelly_result.robust_fraction
            (price * paper_contracts * 0.02) ctx.timestamp),
         EngineAction.BroadcastUpdate (WsMessage.NewTrade model_name side
            "buy" price paper_contracts ev_result.ev ctx.timestamp)])
    else (state, actions)
  else (state, actions)

/-- The calibrated probability drawn at the top of the per-model loop. -/
def tick_prob (cal : Calibrator) (model : ModelParams → VolContext → ℚ)
    (params : ModelParams) (vol_ctx : VolContext) : ℚ :=
  cal.calibrate (model params vol_ctx)

/-- The per-model EV decision (fee 2%, slippage 0.005, fill 0.9). -/
def tick_ev (prob yes_ask threshold : ℚ) : EvResult :=
  compute_ev
    { probability := prob, contract_price := yes_ask, fee_rate := 0.02,
      slippage := 0.005, fill_probability := 0.9 } threshold

/-- The per-model Kelly sizing call (win-side probability and price). -/
def tick_kelly (sqrtFn : ℚ → ℚ) (prob : ℚ) (ev_result : EvResult)
    (alpha beta yes_ask gamma max_position : ℚ) : KellyResult :=
  compute_kelly sqrtFn
    { model_probability := if ev_result.buy_yes then prob else 1 - prob,
      alpha := alpha, beta := beta,
      contract_price := if ev_result.buy_yes then yes_ask else 1 - yes_ask,
      fractional_gamma := gamma, lambda := 0.5,
      max_position := max_position }

/-- The paper contract count: Kelly's size floored at one when positive. -/
def tick_paper (kelly_result : KellyResult) : ℚ :=
  if kelly_result.contracts > 0 then max kelly_result.contracts 1
  else kelly_result.contracts

/-- Phase 1 of the per-model loop of `run_tick`: the per-tick fields and
the mark-to-market / peak-tracking map. -/
def tick_phase1 (state0 : ModelState) (prob : ℚ) (ev_result : EvResult)
    (paper_contracts : ℚ) (ctx : TickCtx) : ModelState :=
  let state := { state0 with
    probability := prob, ev := ev_result.ev,
    kelly_size := paper_contracts }
  { state with
    open_positions := state.open_positions.map (fun pos =>
      let current_bid := if pos.side = "yes" then ctx.yes_bid
        else 1 - ctx.yes_ask
      let unrealized := (current_bid - pos.entry_price) * pos.contracts
      if unrealized > pos.peak_unrealized
      then { pos with peak_unrealized := unrealized } else pos),
    unrealized_pnl := positions_unrealized ctx state.open_positions }

/-- Phase 2 of `run_tick` as executed: the partial exits first, then the
full exits in reverse index order, then the unrealized-P/L recomputation. -/
def tick_exits (sqrtFn : ℚ → ℚ) (model_name : String) (ctx : TickCtx)
    (prob : ℚ) (state : ModelState) : ModelState × List EngineAction :=
  let marks := phase2_marks ctx state.open_positions
  let partial_exits := collect_partial_exits ctx state.open_positions marks.2
  let sa := partial_exits.foldl (apply_partial_exit sqrtFn model_name ctx prob)
    (state, ([] : List EngineAction))
  let sa := (marks.1.reverse).foldl (apply_full_exit sqrtFn model_name ctx) sa
  ({ sa.1 with
      unrealized_pnl := positions_unrealized ctx sa.1.open_positions },
    sa.2)

/-- The tail of the per-model loop: the final mark-to-market, the
model-update broadcast and the snapshot insert. -/
def tick_finish (model_name : String) (prob : ℚ) (ev_result : EvResult)
    (kelly_result : KellyResult) (paper_contracts : ℚ)
    (vol_state : VolatilityState) (ctx : TickCtx)
    (sa4 : ModelState × List EngineAction) (cal : Calibrator) :
    ModelState × Calibrator × List EngineAction :=
  let state := { sa4.1 with
    unrealized_pnl := positions_unrealized ctx sa4.1.open_positions }
  let actions := sa4.2
  let total_pnl := state.cumulative_pnl + state.unrealized_pnl
  (state, cal, actions ++
    [EngineAction.BroadcastUpdate (WsMessage.ModelUpdate model_name prob
        ev_result.ev paper_contracts state.cumulative_pnl
        state.unrealized_pnl total_pnl state.total_trades
        state.winning_trades state.sharpe state.max_drawdown
        state.brier_score state.daily_pnl state.current_exposure
        state.open_positions.length),
     EngineAction.DbWrite (DbCommand.InsertSnapshot model_name ctx.timestamp
        ctx.btc_price (some ctx.market_ticker) (some prob)
        (some ev_result.ev) (some kelly_result.contracts)
        (state.cumulative_pnl + state.unrealized_pnl)
        (some vol_state.ewma_vol) (some vol_state.regime.display))])

/-- The per-model loop body of `run_tick` (paper/simulator.rs lines 156–738):
model pricing, calibration, EV, Kelly, then the four phases.  The pricing
model (`&dyn PricingModel`) is a pair of its name and probability function;
`uuid` is the fresh trade id this model would draw from `Uuid::new_v4`. -/
def tick_model (sqrtFn : ℚ → ℚ) (uuid : String) (model_name : String)
    (model : ModelParams → VolContext → ℚ) (state0 : ModelState)
    (cal : Calibrator) (params : ModelParams) (vol_ctx : VolContext)
    (vol_state : VolatilityState) (config : AppConfig) (ctx : TickCtx) :
    ModelState × Calibrator × List EngineAction :=
  let prob := tick_prob cal model params vol_ctx
  let ev_result := tick_ev prob ctx.yes_ask config.ev_threshold
  let kelly_result := tick_kelly sqrtFn prob ev_result state0.beta_alpha
    state0.beta_beta ctx.yes_ask config.fractional_kelly
    config.max_position_size
  let paper_contracts := tick_paper kelly_result
  tick_finish model_name prob ev_result kelly_result paper_contracts
    vol_state ctx
    (phase4_new_entry sqrtFn uuid model_name prob ev_result kelly_result
      paper_contracts vol_state config ctx
      (phase3_scale_in sqrtFn uuid model_name prob ev_result kelly_result
        vol_state config ctx
        (tick_exits sqrtFn model_name ctx prob
          (tick_phase1 state0 prob ev_result paper_contracts ctx))))
    cal

/-- The `for (i, model) in pricing_models.iter().enumerate()` loop of
`run_tick`, walking the three parallel lists (the engine always passes lists
of equal length; a ragged tail is returned unchanged). -/
def run_models (sqrtFn : ℚ → ℚ) (uuidGen : ℕ → String) (params : ModelParams)
    (vol_ctx : VolContext) (vol_state : VolatilityState) (config : AppConfig)
    (ctx : TickCtx) :
    ℕ → List (String × (ModelParams → VolContext → ℚ)) → List ModelState →
    List Calibrator → List ModelState × List Calibrator × List EngineAction
  | _, [], states, cals => (states, cals, [])
  | _, _ :: _, [], cals => ([], cals, [])
  | _, _ :: _, states, [] => (states, [], [])
  | i, m :: ms, s :: ss, c :: cs =>
    let r := tick_model sqrtFn (uuidGen i) m.1 m.2 s c params vol_ctx
      vol_state config ctx
    let rest := run_models sqrtFn uuidGen params vol_ctx vol_state config ctx
      (i + 1) ms ss cs
    (r.1 :: rest.1, r.2.1 :: rest.2.1, r.2.2 ++ rest.2.2)

/-- `run_tick` (paper/simulator.rs): the guards, the per-tick parameters and
the per-model loop.  `lnFn`/`sqrtFn` model the `f64` primitives, `uuidGen i`
the fresh uuid drawn for model `i`, and `compute_ttl` the wall-clock TTL
computation from the market's close-time string. -/
def run_tick (lnFn sqrtFn : ℚ → ℚ) (uuidGen : ℕ → String)
    (compute_ttl : String → ℚ)
    (pricing_models : List (String × (ModelParams → VolContext → ℚ)))
    (model_states : List ModelState) (calibrators : List Calibrator)
    (vol_state : VolatilityState) (active_market : Option ActiveMarket)
    (btc_price : ℚ) (config : AppConfig) (timestamp : String)
    (tick_counter : ℕ) :
    List ModelState × List Calibrator × List EngineAction :=
  match active_market with
  | none =>
    (model_states.map (fun s => { s with unrealized_pnl := 0 }),
      calibrators, [])
  | some market =>
    let strikeOpt : Option ℚ :=
      match market.strike with
      | some s => if s > 0 then some s else none
      | none => none
    match strikeOpt with
    | none => (model_states, calibrators, [])
    | some strike =>
      let yes_ask := market.yes_ask.getD 0
      let yes_bid := market.yes_bid.getD 0
      if yes_ask ≤ 0 ∨ yes_ask ≥ 1 then (model_states, calibrators, [])
      else
        let ttl_seconds := compute_ttl market.close_time
        if ttl_seconds ≤ 0 then (model_states, calibrators, [])
        else
          let annualized_sigma := vol_state.ewma_vol
            * sqrtFn (365.25 * 24 * 3600 / 2)
          let params := ModelParams.new lnFn sqrtFn btc_price strike
            ttl_seconds annualized_sigma
          let vol_ctx : VolContext :=
            { jump_intensity := vol_state.jump_intensity,
              jump_mean := vol_state.jump_mean,
              jump_var := vol_state.jump_var,
              student_t_nu := vol_state.student_t_nu }
          let ctx : TickCtx :=
            { market_ticker := market.ticker, yes_ask := yes_ask,
              yes_bid := yes_bid, strike := strike, btc_price := btc_price,
              ttl_seconds := ttl_seconds, tick_counter := tick_counter,
              timestamp := timestamp }
          run_models sqrtFn uuidGen params vol_ctx vol_state config ctx 0
            pricing_models model_states calibrators

instance : Inhabited Calibrator := ⟨Calibrator.new⟩

/-- `trade_won`: the source's `won` test in `settle_trades`. -/
def trade_won (trade : TradeRow) (result : String) : Bool :=
  decide ((trade.side = "yes" ∧ result = "yes")
    ∨ (trade.side = "no" ∧ result = "no"))

/-- `settle_pnl`: the realized P/L of one settled trade in `settle_trades`. -/
def settle_pnl (trade : TradeRow) (result : String) : ℚ :=
  if trade_won trade result then
    (1 - trade.entry_price) * trade.contracts - trade.fees_estimate
  else
    -trade.entry_price * trade.contracts - trade.fees_estimate

/-- The per-trade mutation of the matching `ModelState` in `settle_trades`
(paper/simulator.rs lines 766–791). -/
def settle_apply (sqrtFn : ℚ → ℚ) (state : ModelState) (trade : TradeRow)
    (result : String) : ModelState :=
  let won := trade_won trade result
  let pnl := settle_pnl trade result
  let state := { state with
    cumulative_pnl := state.cumulative_pnl + pnl,
    daily_pnl := state.daily_pnl + pnl }
  let state := if won then
      { state with
        winning_trades := state.winning_trades + 1,
        beta_alpha := state.beta_alpha + 1 }
    else { state with beta_beta := state.beta_beta + 1 }
  let state := { state with
    current_exposure :=
      max (state.current_exposure - trade.entry_price * trade.contracts) 0 }
  let ret := pnl / max (trade.entry_price * trade.contracts) 0.01
  let state := ((state.record_return ret).update_drawdown).compute_sharpe sqrtFn
  let outcome_val : ℚ := if result = "yes" then 1 else 0
  let brier_diff := trade.model_probability - outcome_val
  let state := { state with
    brier_sum := state.brier_sum + brier_diff * brier_diff,
    brier_count := state.brier_count + 1 }
  let state := state.compute_brier
  { state with
    open_positions := state.open_positions.filter
      (fun p => p.trade_id ≠ trade.id),
    unrealized_pnl := 0 }

/-- The `for trade in pending_trades` body of `settle_trades`. -/
def settle_step (sqrtFn : ℚ → ℚ) (timestamp result : String)
    (acc : List ModelState × List Calibrator × List EngineAction)
    (trade : TradeRow) : List ModelState × List Calibrator × List EngineAction :=
  let won := trade_won trade result
  let pnl := settle_pnl trade result
  let outcome : String := if won then "win" else "loss"
  let states := acc.1
  let states' :=
    match states.findIdx? (fun s => s.name = trade.model_name) with
    | some i => states.set i (settle_apply sqrtFn (states.getD i default)
        trade result)
    | none => states
  let cals' :=
    match states'.findIdx? (fun s => s.name = trade.model_name) with
    | some i =>
      let outcome_bool := decide ((result = "yes" ∧ trade.side = "yes")
        ∨ (result = "no" ∧ trade.side = "no"))
      acc.2.1.set i ((acc.2.1.getD i default).record
        (F64.val trade.model_probability) outcome_bool)
    | none => acc.2.1
  (states', cals', acc.2.2 ++
    [EngineAction.SettleTrade trade.id trade.model_name outcome pnl,
     EngineAction.DbWrite (DbCommand.SettleTrade trade.id outcome pnl
        timestamp),
     EngineAction.BroadcastUpdate (WsMessage.TradeSettled trade.model_name
        trade.id outcome pnl timestamp)])

/-- `settle_trades` (paper/simulator.rs): settle every pending trade, then
emit per-model metrics broadcasts and risk-state commands. -/
def settle_trades (sqrtFn : ℚ → ℚ) (model_states : List ModelState)
    (calibrators : List Calibrator) (_market_ticker result : String)
    (pending_trades : List TradeRow) (timestamp : String) :
    List ModelState × List Calibrator × List EngineAction :=
  let r := pending_trades.foldl (settle_step sqrtFn timestamp result)
    (model_states, calibrators, [])
  (r.1, r.2.1, r.1.foldl (fun acts s => acts ++
    [EngineAction.BroadcastUpdate (WsMessage.MetricsUpdate s.name s.sharpe
        s.max_drawdown s.win_rate s.brier_score s.total_trades s.daily_pnl),
     EngineAction.DbWrite (DbCommand.UpdateRiskState s.name
        s.current_exposure s.daily_pnl s.max_drawdown s.peak_equity
        s.total_trades s.winning_trades)]) r.2.2)

-- Claim C1 -------------------------------------------------------------------

/-- C1: in Phase 2 of `run_tick`, a position with
`hold_ticks = tick_counter − entry_tick < MIN_HOLD_TICKS = 5` is exempt from
every exit rule except rule 1: it is marked for a full exit exactly when
(side = "yes" and spot < strike − 25) or (side = "no" and
spot > strike + 25), in which case the reason is `"strike_cross"`; otherwise
it is left untouched on that tick, so no young position can exit with any
other reason. -/
theorem exit_decision_min_hold (ctx : TickCtx) (pos : OpenPosition)
    (hside : pos.side = "yes" ∨ pos.side = "no")
    (hnew : ctx.tick_counter - pos.entry_tick < MIN_HOLD_TICKS) :
    exit_decision ctx pos =
      (if (pos.side = "yes" ∧ ctx.btc_price < ctx.strike - STRIKE_CROSS_BUFFER)
          ∨ (pos.side = "no"
              ∧ ctx.btc_price > ctx.strike + STRIKE_CROSS_BUFFER)
        then ExitMark.full "strike_cross" else ExitMark.keep) := by
  rcases hside with h | h
  · by_cases hc : ctx.btc_price < ctx.strike - STRIKE_CROSS_BUFFER
    · simp [exit_decision, h, hc]
    · simp [exit_decision, h, hc, hnew]
  · by_cases hc : ctx.btc_price > ctx.strike + STRIKE_CROSS_BUFFER
    · simp [exit_decision, h, hc]
    · simp [exit_decision, h, hc, hnew]

/-- C1 witness: the spec's scenario 3 — a YES position opened at tick 100,
checked at tick 101 (hold = 1 < 5) with strike 100000 and spot 99970
(below strike − 25): it exits with reason `"strike_cross"` despite the
minimum-hold protection. -/
theorem exit_decision_min_hold_witness :
    ((OpenPosition.mk "t1" "M" "yes" 0.55 2 0.6 100 100200 0 0).side = "yes"
      ∨ (OpenPosition.mk "t1" "M" "yes" 0.55 2 0.6 100 100200 0 0).side = "no") ∧
    (TickCtx.mk "M" 0.5 0.5 100000 99970 600 101 "t").tick_counter
        - (OpenPosition.mk "t1" "M" "yes" 0.55 2 0.6 100 100200 0 0).entry_tick
      < MIN_HOLD_TICKS ∧
    exit_decision (TickCtx.mk "M" 0.5 0.5 100000 99970 600 101 "t")
        (OpenPosition.mk "t1" "M" "yes" 0.55 2 0.6 100 100200 0 0)
      = ExitMark.full "strike_cross" := by
  refine ⟨Or.inl rfl, by norm_num [MIN_HOLD_TICKS], ?_⟩
  rw [exit_decision_min_hold _ _ (Or.inl rfl) (by norm_num [MIN_HOLD_TICKS])]
  norm_num [STRIKE_CROSS_BUFFER]

-- Claim C4 -------------------------------------------------------------------

theorem stats_chain_winning (sqrtFn : ℚ → ℚ) (s : ModelState) (ret : ℚ) :
    (((s.record_return ret).update_drawdown).compute_sharpe sqrtFn).winning_trades
      = s.winning_trades := by
  simp only [ModelState.record_return, ModelState.update_drawdown,
    ModelState.compute_sharpe]
  split_ifs <;> rfl

theorem stats_chain_alpha (sqrtFn : ℚ → ℚ) (s : ModelState) (ret : ℚ) :
    (((s.record_return ret).update_drawdown).compute_sharpe sqrtFn).beta_alpha
      = s.beta_alpha := by
  simp only [ModelState.record_return, ModelState.update_drawdown,
    ModelState.compute_sharpe]
  split_ifs <;> rfl

theorem stats_chain_beta (sqrtFn : ℚ → ℚ) (s : ModelState) (ret : ℚ) :
    (((s.record_return ret).update_drawdown).compute_sharpe sqrtFn).beta_beta
      = s.beta_beta := by
  simp only [ModelState.record_return, ModelState.update_drawdown,
    ModelState.compute_sharpe]
  split_ifs <;> rfl

theorem stats_chain_exposure (sqrtFn : ℚ → ℚ) (s : ModelState) (ret : ℚ) :
    (((s.record_return ret).update_drawdown).compute_sharpe sqrtFn).current_exposure
      = s.current_exposure := by
  simp only [ModelState.record_return, ModelState.update_drawdown,
    ModelState.compute_sharpe]
  split_ifs <;> rfl

theorem stats_chain_positions (sqrtFn : ℚ → ℚ) (s : ModelState) (ret : ℚ) :
    (((s.record_return ret).update_drawdown).compute_sharpe sqrtFn).open_positions
      = s.open_positions := by
  simp only [ModelState.record_return, ModelState.update_drawdown,
    ModelState.compute_sharpe]
  split_ifs <;> rfl

/-- C4: for every pending trade settled by `settle_trades` against outcome
`result ∈ {"yes", "no"}`: the trade wins exactly when its side equals the
outcome; the realized P/L is `(1 − entry_price)·contracts − fees` on a win
and `−entry_price·contracts − fees` otherwise; a win increments
`winning_trades` and `α` by one, a loss increments `β` by one; and the
model's exposure is decremented by `entry_price·contracts`, floored at 0. -/
theorem settle_apply_spec (sqrtFn : ℚ → ℚ) (state : ModelState)
    (trade : TradeRow) (result : String)
    (hres : result = "yes" ∨ result = "no") :
    (trade_won trade result = true ↔ trade.side = result) ∧
    settle_pnl trade result = (if trade_won trade result
      then (1 - trade.entry_price) * trade.contracts - trade.fees_estimate
      else -trade.entry_price * trade.contracts - trade.fees_estimate) ∧
    (settle_apply sqrtFn state trade result).winning_trades
      = state.winning_trades + (if trade_won trade result then 1 else 0) ∧
    (settle_apply sqrtFn state trade result).beta_alpha
      = state.beta_alpha + (if trade_won trade result then 1 else 0) ∧
    (settle_apply sqrtFn state trade result).beta_beta
      = state.beta_beta + (if trade_won trade result then 0 else 1) ∧
    (settle_apply sqrtFn state trade result).current_exposure
      = max (state.current_exposure - trade.entry_price * trade.contracts) 0 := by
  have hwon : trade_won trade result = true ↔ trade.side = result := by
    rcases hres with h | h <;> subst h <;> simp [trade_won]
  refine ⟨hwon, rfl, ?_, ?_, ?_, ?_⟩ <;>
  · simp only [settle_apply, ModelState.compute_brier]
    by_cases hw : trade_won trade result = true <;>
      simp [hw, stats_chain_winning, stats_chain_alpha, stats_chain_beta,
        stats_chain_exposure]

/-- C4 witness: the spec's scenario 6 — a YES trade with entry 0.40,
3 contracts and fees 0.024, resolving "yes": it wins, and
P/L = (1 − 0.40)·3 − 0.024 = 1.776. -/
theorem settle_apply_spec_witness :
    (("yes" : String) = "yes" ∨ ("yes" : String) = "no") ∧
    (trade_won (TradeRow.mk "t1" "Black-Scholes" "M" "yes" "buy" 0.40 3 0.6
        0.1 0.1 none none 0.024 "e" none) "yes" = true
      ↔ (TradeRow.mk "t1" "Black-Scholes" "M" "yes" "buy" 0.40 3 0.6 0.1 0.1
          none none 0.024 "e" none).side = "yes") ∧
    settle_pnl (TradeRow.mk "t1" "Black-Scholes" "M" "yes" "buy" 0.40 3 0.6
        0.1 0.1 none none 0.024 "e" none) "yes" = 1.776 := by
  have h := settle_apply_spec Rat.sqrt (ModelState.new "Black-Scholes")
    (TradeRow.mk "t1" "Black-Scholes" "M" "yes" "buy" 0.40 3 0.6 0.1 0.1
      none none 0.024 "e" none) "yes" (Or.inl rfl)
  refine ⟨Or.inl rfl, h.1, ?_⟩
  rw [h.2.1]
  norm_num [trade_won]

-- Claim C10 ------------------------------------------------------------------

/-- The disjunction of `run_tick`'s early-return guards for a present
market: strike absent or non-positive, YES ask not parsing into `(0, 1)`
(an unparseable or absent ask reads as `0`), or non-positive TTL. -/
def run_tick_guard_fails (compute_ttl : String → ℚ) (m : ActiveMarket) :
    Prop :=
  (match m.strike with
   | none => True
   | some s => s ≤ 0)
  ∨ m.yes_ask.getD 0 ≤ 0 ∨ m.yes_ask.getD 0 ≥ 1
  ∨ compute_ttl m.close_time ≤ 0

/-- C10: `run_tick` is a guarded no-op on an invalid market context: with no
active market it returns no actions and only zeroes every model's
`unrealized_pnl`; with a market whose strike is absent/non-positive, whose
YES ask does not parse into `(0,1)`, or whose TTL is non-positive, it
returns no actions and leaves every `ModelState` and `Calibrator` entirely
unchanged. -/
theorem run_tick_guard_noop (lnFn sqrtFn : ℚ → ℚ) (uuidGen : ℕ → String)
    (compute_ttl : String → ℚ)
    (pricing_models : List (String × (ModelParams → VolContext → ℚ)))
    (model_states : List ModelState) (calibrators : List Calibrator)
    (vol_state : VolatilityState) (active_market : Option ActiveMarket)
    (btc_price : ℚ) (config : AppConfig) (timestamp : String)
    (tick_counter : ℕ) :
    (active_market = none →
      run_tick lnFn sqrtFn uuidGen compute_ttl pricing_models model_states
          calibrators vol_state active_market btc_price config timestamp
          tick_counter
        = (model_states.map (fun s => { s with unrealized_pnl := 0 }),
            calibrators, [])) ∧
    (∀ m : ActiveMarket, active_market = some m →
      run_tick_guard_fails compute_ttl m →
      run_tick lnFn sqrtFn uuidGen compute_ttl pricing_models model_states
          calibrators vol_state active_market btc_price config timestamp
          tick_counter
        = (model_states, calibrators, [])) := by
  constructor
  · rintro rfl
    rfl
  · rintro m rfl hg
    rcases hg with hstrike | hask0 | hask1 | httl
    · cases hs : m.strike with
      | none => simp [run_tick, hs]
      | some s =>
        rw [hs] at hstrike
        simp only [run_tick, hs]
        rw [if_neg (not_lt.mpr hstrike)]
    · cases hs : m.strike with
      | none => simp [run_tick, hs]
      | some s =>
        simp only [run_tick, hs]
        by_cases hpos : s > 0
        · rw [if_pos hpos]
          simp only []
          rw [if_pos (Or.inl hask0)]
        · rw [if_neg hpos]
    · cases hs : m.strike with
      | none => simp [run_tick, hs]
      | some s =>
        simp only [run_tick, hs]
        by_cases hpos : s > 0
        · rw [if_pos hpos]
          simp only []
          rw [if_pos (Or.inr hask1)]
        · rw [if_neg hpos]
    · cases hs : m.strike with
      | none => simp [run_tick, hs]
      | some s =>
        simp only [run_tick, hs]
        by_cases hpos : s > 0
        · rw [if_pos hpos]
          simp only []
          by_cases hask : m.yes_ask.getD 0 ≤ 0 ∨ m.yes_ask.getD 0 ≥ 1
          · rw [if_pos hask]
          · rw [if_neg hask, if_pos httl]
        · rw [if_neg hpos]

/-- C10 witness: a market with no strike fails the guards, and `run_tick`
on it returns the states, calibrators and no actions unchanged. -/
theorem run_tick_guard_noop_witness :
    run_tick_guard_fails (fun _ => 900)
      (ActiveMarket.mk "T" "E" "S" none none none none none none
        "c" "x" "active" none) ∧
    run_tick lnShift Rat.sqrt (fun _ => "u") (fun _ => 900) [] []
        [] VolatilityState.default
        (some (ActiveMarket.mk "T" "E" "S" none none none none none none
          "c" "x" "active" none))
        1 (AppConfig.mk "KXBTC" 0.2 50 0.02 100) "t" 0
      = ([], [], []) := by
  refine ⟨Or.inl trivial, ?_⟩
  exact (run_tick_guard_noop lnShift Rat.sqrt (fun _ => "u") (fun _ => 900)
      [] [] [] VolatilityState.default
      (some (ActiveMarket.mk "T" "E" "S" none none none none none none
        "c" "x" "active" none))
      1 (AppConfig.mk "KXBTC" 0.2 50 0.02 100) "t" 0).2
    _ rfl (Or.inl trivial)

-- Claim C7 ------------------------------------------------------------------

/-- The position-list invariant `run_tick` maintains: the leg indices of the
open positions are pairwise distinct and all below `MAX_LEGS`. -/
def PosInv (l : List OpenPosition) : Prop :=
  (l.map OpenPosition.leg).Nodup ∧ ∀ x ∈ l.map OpenPosition.leg, x < MAX_LEGS

/-- The model-state lists reachable through `run_tick`: the engine starts
from `ModelState::new` per configured model, and each tick replaces the
state list with `run_tick`'s first component, under arbitrary per-tick
market data, volatility state, calibrators and configuration. -/
inductive EngineReachable : List ModelState → Prop where
  | init (names : List String) : EngineReachable (names.map ModelState.new)
  | tick (states : List ModelState) (lnFn sqrtFn : ℚ → ℚ)
      (uuidGen : ℕ → String) (compute_ttl : String → ℚ)
      (pricing_models : List (String × (ModelParams → VolContext → ℚ)))
      (calibrators : List Calibrator) (vol_state : VolatilityState)
      (active_market : Option ActiveMarket) (btc_price : ℚ)
      (config : AppConfig) (timestamp : String) (tick_counter : ℕ) :
      EngineReachable states →
      EngineReachable (run_tick lnFn sqrtFn uuidGen compute_ttl
        pricing_models states calibrators vol_state active_market btc_price
        config timestamp tick_counter).1

theorem le_max_getD (l : List ℕ) : ∀ x ∈ l, x ≤ l.max?.getD 0 := by
  induction l with
  | nil => simp
  | cons a t ih =>
    intro x hx
    rw [List.max?_cons]
    rcases List.mem_cons.1 hx with rfl | hx
    · cases ht : t.max? <;> simp [Option.elim]
    · have := ih x hx
      cases ht : t.max? with
      | none => simp [ht] at this; omega
      | some m =>
        rw [ht] at this
        simp only [Option.elim, Option.getD_some] at this ⊢
        exact le_trans this (le_max_right _ _)

theorem map_modify {α β : Type} (g : α → β) (f : α → α)
    (hf : ∀ a, g (f a) = g a) :
    ∀ (n : ℕ) (l : List α), (l.modify f n).map g = l.map g
  | n, [] => by cases n <;> simp [List.modify, List.modifyTailIdx]
  | 0, a :: l => by simp [List.modify, List.modifyTailIdx, hf]
  | n+1, a :: l => by
    have := map_modify g f hf n l
    simp only [List.modify, List.modifyTailIdx, List.map_cons] at this ⊢
    rw [this]

theorem map_eraseIdx {α β : Type} (g : α → β) :
    ∀ (n : ℕ) (l : List α), (l.eraseIdx n).map g = (l.map g).eraseIdx n
  | _, [] => by simp
  | 0, _ :: _ => by simp
  | n+1, a :: l => by simp [List.eraseIdx, map_eraseIdx g n l]

theorem posinv_map (f : OpenPosition → OpenPosition)
    (hf : ∀ p, (f p).leg = p.leg) (l : List OpenPosition) (h : PosInv l) :
    PosInv (l.map f) := by
  have hm : (l.map f).map OpenPosition.leg = l.map OpenPosition.leg := by
    rw [List.map_map]
    exact List.map_congr_left (fun a _ => hf a)
  rw [PosInv, hm]; exact h

theorem posinv_modify (f : OpenPosition → OpenPosition)
    (hf : ∀ p, (f p).leg = p.leg) (n : ℕ) (l : List OpenPosition)
    (h : PosInv l) : PosInv (l.modify f n) := by
  rw [PosInv, map_modify OpenPosition.leg f hf n l]; exact h

theorem posinv_eraseIdx (n : ℕ) (l : List OpenPosition) (h : PosInv l) :
    PosInv (l.eraseIdx n) := by
  obtain ⟨h1, h2⟩ := h
  rw [PosInv, map_eraseIdx OpenPosition.leg n l]
  have hsub := List.eraseIdx_sublist (l.map OpenPosition.leg) n
  exact ⟨hsub.nodup h1, fun x hx => h2 x (hsub.subset hx)⟩

theorem apply_partial_exit_positions (sqrtFn : ℚ → ℚ) (mn : String)
    (ctx : TickCtx) (prob : ℚ) (acc : ModelState × List EngineAction)
    (pe : PartialExitData) :
    ((apply_partial_exit sqrtFn mn ctx prob acc pe).1).open_positions
      = acc.1.open_positions.modify
          (fun pos =>
            { pos with contracts := pos.contracts - pe.exit_contracts })
          pe.pos_idx := by
  simp only [apply_partial_exit, stats_chain_positions]
  split_ifs <;> rfl

theorem apply_partial_exit_posinv (sqrtFn : ℚ → ℚ) (mn : String)
    (ctx : TickCtx) (prob : ℚ) (acc : ModelState × List EngineAction)
    (pe : PartialExitData) (h : PosInv acc.1.open_positions) :
    PosInv ((apply_partial_exit sqrtFn mn ctx prob acc pe).1).open_positions := by
  rw [apply_partial_exit_positions]
  exact posinv_modify
    (fun pos => { pos with contracts := pos.contracts - pe.exit_contracts })
    (fun p => rfl) pe.pos_idx acc.1.open_positions h

theorem apply_full_exit_posinv (sqrtFn : ℚ → ℚ) (mn : String) (ctx : TickCtx)
    (acc : ModelState × List EngineAction) (mark : ℕ × String)
    (h : PosInv acc.1.open_positions) :
    PosInv ((apply_full_exit sqrtFn mn ctx acc mark).1).open_positions := by
  simp only [apply_full_exit]
  split
  · exact h
  · simp only [stats_chain_positions]
    repeat' split
    all_goals exact posinv_eraseIdx _ _ h

theorem foldl_posinv {α : Type}
    (g : ModelState × List EngineAction → α → ModelState × List EngineAction)
    (hg : ∀ acc a, PosInv acc.1.open_positions →
      PosInv ((g acc a).1).open_positions) :
    ∀ (l : List α) (acc : ModelState × List EngineAction),
      PosInv acc.1.open_positions → PosInv ((l.foldl g acc).1).open_positions
  | [], _, h => h
  | a :: t, acc, h => foldl_posinv g hg t (g acc a) (hg acc a h)

theorem posinv_push (l : List OpenPosition) (p : OpenPosition)
    (hleg : p.leg = (l.map OpenPosition.leg).max?.getD 0 + 1)
    (hlt : (l.map OpenPosition.leg).max?.getD 0 < MAX_LEGS - 1)
    (h : PosInv l) : PosInv (l ++ [p]) := by
  obtain ⟨hn, hb⟩ := h
  constructor
  · rw [List.map_append, List.nodup_append]
    refine ⟨hn, by simp, ?_⟩
    intro x hx hx'
    simp only [List.map_cons, List.map_nil, List.mem_singleton] at hx'
    have hle := le_max_getD (l.map OpenPosition.leg) x hx
    omega
  · intro x hx
    rw [List.map_append] at hx
    rcases List.mem_append.1 hx with hx | hx
    · exact hb x hx
    · simp only [List.map_cons, List.map_nil, List.mem_singleton] at hx
      subst hx
      omega

theorem posinv_entry_push (l : List OpenPosition) (p : OpenPosition)
    (hleg : p.leg = 0) (hl : l = []) : PosInv (l ++ [p]) := by
  subst hl
  simp [PosInv, hleg, MAX_LEGS]

theorem phase3_scale_in_posinv (sqrtFn : ℚ → ℚ) (uuid mn : String) (prob : ℚ)
    (ev_result : EvResult) (kelly_result : KellyResult)
    (vol_state : VolatilityState) (config : AppConfig) (ctx : TickCtx)
    (acc : ModelState × List EngineAction)
    (h : PosInv acc.1.open_positions) :
    PosInv ((phase3_scale_in sqrtFn uuid mn prob ev_result kelly_result
      vol_state config ctx acc).1).open_positions := by
  simp only [phase3_scale_in]
  split
  · exact h
  · split_ifs
    all_goals first
      | exact h
      | exact posinv_push _ _ rfl (by assumption) h

theorem phase4_new_entry_posinv (sqrtFn : ℚ → ℚ) (uuid mn : String)
    (prob : ℚ) (ev_result : EvResult) (kelly_result : KellyResult)
    (paper_contracts : ℚ) (vol_state : VolatilityState) (config : AppConfig)
    (ctx : TickCtx) (acc : ModelState × List EngineAction)
    (h : PosInv acc.1.open_positions) :
    PosInv ((phase4_new_entry sqrtFn uuid mn prob ev_result kelly_result
      paper_contracts vol_state config ctx acc).1).open_positions := by
  simp only [phase4_new_entry]
  split_ifs
  all_goals first
    | exact h
    | (rename_i hcond hrisk
       exact posinv_entry_push _ _ rfl
         (List.isEmpty_iff.1 (Decidable.not_not.1 hcond.2.2.1)))
    | (rename_i hcond hbuy hrisk
       exact posinv_entry_push _ _ rfl
         (List.isEmpty_iff.1 (Decidable.not_not.1 hcond.2.2.1)))
    | (rename_i hbuy hcond hrisk
       exact posinv_entry_push _ _ rfl
         (List.isEmpty_iff.1 (Decidable.not_not.1 hcond.2.2.1)))

theorem tick_model_posinv (sqrtFn : ℚ → ℚ) (uuid mn : String)
    (model : ModelParams → VolContext → ℚ) (state0 : ModelState)
    (cal : Calibrator) (params : ModelParams) (vol_ctx : VolContext)
    (vol_state : VolatilityState) (config : AppConfig) (ctx : TickCtx)
    (h : PosInv state0.open_positions) :
    PosInv ((tick_model sqrtFn uuid mn model state0 cal params vol_ctx
      vol_state config ctx).1).open_positions := by
  simp only [tick_model]
  refine phase4_new_entry_posinv _ _ _ _ _ _ _ _ _ _ _ ?_
  dsimp only
  refine phase3_scale_in_posinv _ _ _ _ _ _ _ _ _ _ ?_
  dsimp only
  refine foldl_posinv _ (fun a b hp => apply_full_exit_posinv _ _ _ a b hp) _ _
    (foldl_posinv _ (fun a b hp => apply_partial_exit_posinv _ _ _ _ a b hp)
      _ _ ?_)
  dsimp only
  refine posinv_map _ (fun p => ?_) _ h
  dsimp only
  repeat' split
  all_goals rfl

theorem run_models_posinv (sqrtFn : ℚ → ℚ) (uuidGen : ℕ → String)
    (params : ModelParams) (vol_ctx : VolContext)
    (vol_state : VolatilityState) (config : AppConfig) (ctx : TickCtx) :
    ∀ (i : ℕ) (ms : List (String × (ModelParams → VolContext → ℚ)))
      (states : List ModelState) (cals : List Calibrator),
      (∀ s ∈ states, PosInv s.open_positions) →
      ∀ s ∈ (run_models sqrtFn uuidGen params vol_ctx vol_state config ctx
        i ms states cals).1, PosInv s.open_positions
  | _, [], _, _, h => by simpa [run_models] using h
  | _, _ :: _, [], _, _ => by simp [run_models]
  | _, _ :: _, _ :: _, [], h => by simpa [run_models] using h
  | i, m :: ms, s :: ss, c :: cs, h => by
    simp only [run_models]
    intro s' hs'
    rcases List.mem_cons.1 hs' with rfl | hs'
    · exact tick_model_posinv _ _ _ _ _ _ _ _ _ _ _
        (h s (List.mem_cons_self s ss))
    · exact run_models_posinv sqrtFn uuidGen params vol_ctx vol_state config
        ctx (i + 1) ms ss cs (fun x hx => h x (List.mem_cons_of_mem s hx))
        s' hs'

theorem run_tick_posinv (lnFn sqrtFn : ℚ → ℚ) (uuidGen : ℕ → String)
    (compute_ttl : String → ℚ)
    (pricing_models : List (String × (ModelParams → VolContext → ℚ)))
    (states : List ModelState) (cals : List Calibrator)
    (vol_state : VolatilityState) (active_market : Option ActiveMarket)
    (btc_price : ℚ) (config : AppConfig) (timestamp : String)
    (tick_counter : ℕ)
    (h : ∀ s ∈ states, PosInv s.open_positions) :
    ∀ s ∈ (run_tick lnFn sqrtFn uuidGen compute_ttl pricing_models states
      cals vol_state active_market btc_price config timestamp
      tick_counter).1, PosInv s.open_positions := by
  rcases active_market with _ | market
  · intro s hs
    simp only [run_tick, List.mem_map] at hs
    obtain ⟨t, ht, rfl⟩ := hs
    exact h t ht
  · simp only [run_tick]
    split
    · exact h
    · split_ifs
      · exact h
      · exact h
      · exact run_models_posinv sqrtFn uuidGen _ _ vol_state config _ 0
          pricing_models states cals h

/-- C7: every model state reachable through `run_tick` has at most
`MAX_LEGS` open positions, with pairwise-distinct leg indices all below
`MAX_LEGS`.  (The stronger claim — that the legs form a gap-free prefix
`0..k` — is refuted by `run_tick_positions_counterexample`.) -/
theorem run_tick_positions_invariant (states : List ModelState)
    (h : EngineReachable states) :
    ∀ s ∈ states,
      (s.open_positions.map OpenPosition.leg).Nodup ∧
      (∀ p ∈ s.open_positions, p.leg < MAX_LEGS) ∧
      s.open_positions.length ≤ MAX_LEGS := by
  have key : ∀ s ∈ states, PosInv s.open_positions := by
    induction h with
    | init names =>
      intro s hs
      obtain ⟨n, _, rfl⟩ := List.mem_map.1 hs
      simp [PosInv, ModelState.new]
    | tick states lnFn sqrtFn uuidGen cttl pm cals vs am btc config ts tc
        _ ih =>
      exact run_tick_posinv lnFn sqrtFn uuidGen cttl pm states cals vs am
        btc config ts tc ih
  intro s hs
  obtain ⟨h1, h2⟩ := key s hs
  refine ⟨h1, fun p hp => h2 _ (List.mem_map_of_mem _ hp), ?_⟩
  have hlen : s.open_positions.length
      = (s.open_positions.map OpenPosition.leg).length :=
    (List.length_map _ _).symm
  rw [hlen, ← List.toFinset_card_of_nodup h1]
  have hsub : (s.open_positions.map OpenPosition.leg).toFinset
      ⊆ Finset.range MAX_LEGS := by
    intro x hx
    exact Finset.mem_range.2 (h2 x (List.mem_toFinset.1 hx))
  calc (s.open_positions.map OpenPosition.leg).toFinset.card
      ≤ (Finset.range MAX_LEGS).card := Finset.card_le_card hsub
    _ = MAX_LEGS := Finset.card_range _

/-- C7 witness: the fresh one-model engine state is reachable and satisfies
the invariant (trivially: no positions are open). -/
theorem run_tick_positions_invariant_witness :
    EngineReachable [ModelState.new "Black-Scholes"] ∧
    ∀ s ∈ [ModelState.new "Black-Scholes"],
      (s.open_positions.map OpenPosition.leg).Nodup ∧
      (∀ p ∈ s.open_positions, p.leg < MAX_LEGS) ∧
      s.open_positions.length ≤ MAX_LEGS := by
  have hr : EngineReachable [ModelState.new "Black-Scholes"] :=
    EngineReachable.init ["Black-Scholes"]
  exact ⟨hr, run_tick_positions_invariant _ hr⟩

/-- The pricing model of the leg-gap counterexample: a constant probability
of 0.8. -/
def c7_model : ModelParams → VolContext → ℚ := fun _ _ => 4/5

/-- The configuration of the leg-gap counterexample. -/
def c7_config : AppConfig :=
  { btc_series_ticker := "KXBTC", fractional_kelly := 1/5,
    max_position_size := 50, ev_threshold := 1/50,
    max_daily_drawdown := 100 }

/-- A market of the leg-gap counterexample: strike 99950, with the given
YES ask and bid. -/
def c7_mkt (ask bid : ℚ) : ActiveMarket :=
  { ticker := "M", event_ticker := "E", series_ticker := "S",
    strike := some 99950, yes_bid := some bid, yes_ask := some ask,
    no_bid := none, no_ask := none, last_price := none, close_time := "c",
    expiration_time := "x", status := "active", result := none }

/-- One engine tick of the leg-gap counterexample: a single constant model,
a fresh calibrator, default volatility, TTL 900s. -/
def c7_run (states : List ModelState) (ask bid btc : ℚ) (tick : ℕ) :
    List ModelState :=
  (run_tick lnShift Rat.sqrt (fun _ => "uuid") (fun _ => 900)
    [("Black-Scholes", c7_model)] states [Calibrator.new]
    VolatilityState.default (some (c7_mkt ask bid)) btc c7_config "t"
    tick).1

def c7_states1 : List ModelState :=
  c7_run [ModelState.new "Black-Scholes"] (1/2) (1/2) 100000 100

def c7_states2 : List ModelState := c7_run c7_states1 (3/5) (7/10) 100100 101

def c7_states3 : List ModelState := c7_run c7_states2 (3/5) (19/20) 100100 105

/-- The leg-0 position opened at tick 100. -/
def c7_pos1 : OpenPosition :=
  { trade_id := "uuid", market_ticker := "M", side := "yes",
    entry_price := 1/2, contracts := 31/6, model_probability := 4/5,
    entry_tick := 100, entry_btc_price := 100000, peak_unrealized := 0,
    leg := 0 }

/-- The leg-1 scale-in position opened at tick 101. -/
def c7_pos2 : OpenPosition :=
  { trade_id := "uuid", market_ticker := "M", side := "yes",
    entry_price := 3/5, contracts := 1, model_probability := 4/5,
    entry_tick := 101, entry_btc_price := 100100, peak_unrealized := 0,
    leg := 1 }

/-- The model state after the first counterexample tick. -/
def c7_s1 : ModelState :=
  { name := "Black-Scholes", probability := 4/5, ev := 2583/10000,
    kelly_size := 31/6, cumulative_pnl := 0, total_trades := 1,
    winning_trades := 0, sharpe := 0, max_drawdown := 0, brier_score := 0,
    daily_pnl := 0, current_exposure := 31/12, peak_equity := 0,
    trade_returns := [], beta_alpha := 20, beta_beta := 20, brier_sum := 0,
    brier_count := 0, unrealized_pnl := 0, open_positions := [c7_pos1] }

theorem c7_states1_eq : c7_states1 = [c7_s1] := by
  norm_num [c7_states1, c7_run, run_tick, run_models, tick_model, c7_model,
    tick_prob, tick_ev, tick_kelly, tick_paper, tick_phase1, tick_exits,
    tick_finish,
    c7_mkt, c7_config, Calibrator.new, Calibrator.calibrate, compute_ev,
    compute_kelly, rclamp, Rat.sqrt, ModelState.new, VolatilityState.default,
    positions_unrealized, phase2_marks, collect_partial_exits,
    phase3_scale_in, phase4_new_entry, check_risk_limits,
    RiskCheck.is_allowed, ModelParams.new, MIN_ENTRY_TTL, MAX_LEGS, c7_s1,
    c7_pos1]

/-- `c7_pos1` after the second tick's mark-to-market (peak 31/30). -/
def c7_pos1a : OpenPosition := { c7_pos1 with peak_unrealized := 31/30 }

/-- The model state after the second counterexample tick: the leg-1
scale-in has been added. -/
def c7_s2 : ModelState :=
  { name := "Black-Scholes", probability := 4/5, ev := 8487/50000,
    kelly_size := 95/24, cumulative_pnl := 0, total_trades := 2,
    winning_trades := 0, sharpe := 0, max_drawdown := 0, brier_score := 0,
    daily_pnl := 0, current_exposure := 191/60, peak_equity := 0,
    trade_returns := [], beta_alpha := 20, beta_beta := 20, brier_sum := 0,
    brier_count := 0, unrealized_pnl := 17/15,
    open_positions := [c7_pos1a, c7_pos2] }

theorem c7_states2_eq : c7_states2 = [c7_s2] := by
  rw [c7_states2, c7_states1_eq]
  norm_num [c7_run, run_tick, run_models, tick_model, c7_model, c7_mkt,
    tick_prob, tick_ev, tick_kelly, tick_paper, tick_phase1, tick_exits,
    tick_finish,
    c7_config, Calibrator.new, Calibrator.calibrate, compute_ev,
    compute_kelly, rclamp, Rat.sqrt, c7_s1, VolatilityState.default,
    positions_unrealized, phase2_marks, collect_partial_exits,
    phase3_scale_in, phase4_new_entry, check_risk_limits,
    RiskCheck.is_allowed, ModelParams.new, exit_decision, MIN_ENTRY_TTL,
    MAX_LEGS, MIN_HOLD_TICKS, STRIKE_CROSS_BUFFER, HARD_STOP_LOSS_PCT,
    TRAILING_STOP_PCT, FULL_TAKE_PROFIT_PCT, PARTIAL_TAKE_PROFIT_PCT,
    UNCERTAIN_EXIT_SECONDS, RESOLUTION_HOLD_DISTANCE,
    RESOLUTION_HOLD_SECONDS, SCALE_IN_MOVE, c7_s2, c7_pos1, c7_pos1a,
    c7_pos2]

/-- `c7_pos2` after the third tick's mark-to-market (peak 7/20). -/
def c7_pos2a : OpenPosition := { c7_pos2 with peak_unrealized := 7/20 }

theorem apply_full_exit_positions (sqrtFn : ℚ → ℚ) (mn : String)
    (ctx : TickCtx) (acc : ModelState × List EngineAction)
    (mark : ℕ × String) :
    ((apply_full_exit sqrtFn mn ctx acc mark).1).open_positions
      = if mark.1 ≥ acc.1.open_positions.length then acc.1.open_positions
        else acc.1.open_positions.eraseIdx mark.1 := by
  simp only [apply_full_exit]
  split
  · rfl
  · simp only [stats_chain_positions]
    repeat' split
    all_goals rfl

theorem foldl_partial_positions (sqrtFn : ℚ → ℚ) (mn : String)
    (ctx : TickCtx) (prob : ℚ) :
    ∀ (l : List PartialExitData) (acc : ModelState × List EngineAction),
      ((l.foldl (apply_partial_exit sqrtFn mn ctx prob) acc).1).open_positions
        = l.foldl
            (fun ps pe => ps.modify
              (fun pos =>
                { pos with contracts := pos.contracts - pe.exit_contracts })
              pe.pos_idx)
            acc.1.open_positions
  | [], _ => rfl
  | pe :: t, acc => by
    rw [List.foldl_cons, List.foldl_cons,
      foldl_partial_positions sqrtFn mn ctx prob t _,
      apply_partial_exit_positions]

theorem foldl_full_positions (sqrtFn : ℚ → ℚ) (mn : String) (ctx : TickCtx) :
    ∀ (l : List (ℕ × String)) (acc : ModelState × List EngineAction),
      ((l.foldl (apply_full_exit sqrtFn mn ctx) acc).1).open_positions
        = l.foldl
            (fun ps m =>
              if m.1 ≥ ps.length then ps else ps.eraseIdx m.1)
            acc.1.open_positions
  | [], _ => rfl
  | m :: t, acc => by
    rw [List.foldl_cons, List.foldl_cons,
      foldl_full_positions sqrtFn mn ctx t _,
      apply_full_exit_positions]

theorem phase3_positions_single (p : OpenPosition) (sqrtFn : ℚ → ℚ)
    (uuid mn : String) (prob : ℚ) (ev_result : EvResult)
    (kelly_result : KellyResult) (vol_state : VolatilityState)
    (config : AppConfig) (ctx : TickCtx)
    (acc : ModelState × List EngineAction)
    (hpos : acc.1.open_positions = [p]) (hside : p.side = "yes")
    (hmove : ¬ (ctx.btc_price - p.entry_btc_price > SCALE_IN_MOVE)) :
    ((phase3_scale_in sqrtFn uuid mn prob ev_result kelly_result vol_state
      config ctx acc).1).open_positions = acc.1.open_positions := by
  simp only [phase3_scale_in, hpos]
  split_ifs
  all_goals first
    | rfl
    | exact hpos
    | exact absurd hside ‹¬ _ = _›
    | exact absurd (‹_ ∧ _ ∧ _›.1) hmove

theorem phase4_positions_skip (sqrtFn : ℚ → ℚ) (uuid mn : String)
    (prob : ℚ) (ev_result : EvResult) (kelly_result : KellyResult)
    (paper_contracts : ℚ) (vol_state : VolatilityState) (config : AppConfig)
    (ctx : TickCtx) (acc : ModelState × List EngineAction)
    (hne : acc.1.open_positions.isEmpty = false) :
    ((phase4_new_entry sqrtFn uuid mn prob ev_result kelly_result
      paper_contracts vol_state config ctx acc).1).open_positions
      = acc.1.open_positions := by
  simp only [phase4_new_entry]
  split_ifs
  all_goals first
    | rfl
    | (exfalso
       have h1 := Decidable.not_not.1 (‹_ ∧ _ ∧ _ ∧ _›.2.2.1)
       rw [hne] at h1
       exact Bool.false_ne_true h1)

theorem c7_prob (params : ModelParams) (vol_ctx : VolContext) :
    tick_prob Calibrator.new c7_model params vol_ctx = 4/5 := by
  norm_num [tick_prob, c7_model, Calibrator.calibrate, Calibrator.new]

theorem c7_ev3 : tick_ev (4/5) (3/5) (1/50)
    = { ev := 8487/50000, is_signal := true, buy_yes := true,
        effective_prob := 4/5, ev_opposite := -(9333/50000) } := by
  norm_num [tick_ev, compute_ev]

theorem c7_kelly3 : tick_kelly Rat.sqrt (4/5)
    { ev := 8487/50000, is_signal := true, buy_yes := true,
      effective_prob := 4/5, ev_opposite := -(9333/50000) }
    20 20 (3/5) (1/5) 50
    = { raw_fraction := 19/48, robust_fraction := 19/240,
        contracts := 95/24, p_eff := 91/120, p_mean := 1/2,
        p_std := 1/12 } := by
  norm_num [tick_kelly, compute_kelly, rclamp, Rat.sqrt]

theorem c7_paper3 : tick_paper
    { raw_fraction := 19/48, robust_fraction := 19/240, contracts := 95/24,
      p_eff := 91/120, p_mean := 1/2, p_std := 1/12 } = 95/24 := by
  norm_num [tick_paper]

theorem tick_finish_positions (mn : String) (prob : ℚ)
    (ev_result : EvResult) (kelly_result : KellyResult)
    (paper_contracts : ℚ) (vol_state : VolatilityState) (ctx : TickCtx)
    (sa4 : ModelState × List EngineAction) (cal : Calibrator) :
    ((tick_finish mn prob ev_result kelly_result paper_contracts vol_state
      ctx sa4 cal).1).open_positions = sa4.1.open_positions := rfl

theorem tick_exits_positions (sqrtFn : ℚ → ℚ) (mn : String)
    (ctx : TickCtx) (prob : ℚ) (state : ModelState) :
    ((tick_exits sqrtFn mn ctx prob state).1).open_positions
      = ((phase2_marks ctx state.open_positions).1.reverse).foldl
          (fun ps m => if m.1 ≥ ps.length then ps else ps.eraseIdx m.1)
          ((collect_partial_exits ctx state.open_positions
              (phase2_marks ctx state.open_positions).2).foldl
            (fun ps pe => ps.modify
              (fun pos =>
                { pos with contracts := pos.contracts - pe.exit_contracts })
              pe.pos_idx)
            state.open_positions) := by
  simp only [tick_exits]
  rw [foldl_full_positions, foldl_partial_positions]

theorem c7_states3_positions :
    (c7_states3.headD (ModelState.new "")).open_positions = [c7_pos2a] := by
  rw [c7_states3, c7_states2_eq]
  norm_num [c7_run, run_tick, run_models, c7_mkt, List.headD]
  simp only [tick_model]
  norm_num [c7_prob, c7_ev3, c7_kelly3, c7_paper3, c7_s2, c7_config,
    -List.foldl_reverse]
  rw [tick_finish_positions,
    phase4_positions_skip, phase3_positions_single c7_pos2a]
  · rw [tick_exits_positions]
    norm_num [tick_phase1, phase2_marks, collect_partial_exits,
      exit_decision, List.enum, List.enumFrom, c7_s2, c7_pos1, c7_pos1a,
      c7_pos2, c7_pos2a, MIN_HOLD_TICKS, STRIKE_CROSS_BUFFER,
      HARD_STOP_LOSS_PCT, TRAILING_STOP_PCT, FULL_TAKE_PROFIT_PCT,
      PARTIAL_TAKE_PROFIT_PCT, UNCERTAIN_EXIT_SECONDS,
      RESOLUTION_HOLD_DISTANCE, RESOLUTION_HOLD_SECONDS,
      -List.foldl_reverse]
  · rw [tick_exits_positions]
    norm_num [tick_phase1, phase2_marks, collect_partial_exits,
      exit_decision, List.enum, List.enumFrom, c7_s2, c7_pos1, c7_pos1a,
      c7_pos2, c7_pos2a, MIN_HOLD_TICKS, STRIKE_CROSS_BUFFER,
      HARD_STOP_LOSS_PCT, TRAILING_STOP_PCT, FULL_TAKE_PROFIT_PCT,
      PARTIAL_TAKE_PROFIT_PCT, UNCERTAIN_EXIT_SECONDS,
      RESOLUTION_HOLD_DISTANCE, RESOLUTION_HOLD_SECONDS,
      -List.foldl_reverse]
  · norm_num [c7_pos2a, c7_pos2]
  · norm_num [c7_pos2a, c7_pos2, SCALE_IN_MOVE]
  · rw [phase3_positions_single c7_pos2a]
    · rw [tick_exits_positions]
      norm_num [tick_phase1, phase2_marks, collect_partial_exits,
      exit_decision, List.enum, List.enumFrom, c7_s2, c7_pos1, c7_pos1a,
      c7_pos2, c7_pos2a, MIN_HOLD_TICKS, STRIKE_CROSS_BUFFER,
      HARD_STOP_LOSS_PCT, TRAILING_STOP_PCT, FULL_TAKE_PROFIT_PCT,
      PARTIAL_TAKE_PROFIT_PCT, UNCERTAIN_EXIT_SECONDS,
      RESOLUTION_HOLD_DISTANCE, RESOLUTION_HOLD_SECONDS,
      -List.foldl_reverse]
    · rw [tick_exits_positions]
      norm_num [tick_phase1, phase2_marks, collect_partial_exits,
      exit_decision, List.enum, List.enumFrom, c7_s2, c7_pos1, c7_pos1a,
      c7_pos2, c7_pos2a, MIN_HOLD_TICKS, STRIKE_CROSS_BUFFER,
      HARD_STOP_LOSS_PCT, TRAILING_STOP_PCT, FULL_TAKE_PROFIT_PCT,
      PARTIAL_TAKE_PROFIT_PCT, UNCERTAIN_EXIT_SECONDS,
      RESOLUTION_HOLD_DISTANCE, RESOLUTION_HOLD_SECONDS,
      -List.foldl_reverse]
    · norm_num [c7_pos2a, c7_pos2]
    · norm_num [c7_pos2a, c7_pos2, SCALE_IN_MOVE]

/-- C7 counterexample: a reachable engine state whose open-position legs are
not a gap-free prefix `0..k`.  Tick 100 opens a leg-0 position, tick 101
scales in a leg-1 position, and at tick 105 the leg-0 position takes profit
and is removed while the still-new leg-1 position stays: a position is open,
its leg is 1, and no leg-0 position exists. -/
theorem run_tick_positions_counterexample :
    EngineReachable c7_states3 ∧
    (c7_states3.headD (ModelState.new "")).open_positions ≠ [] ∧
    ((c7_states3.headD (ModelState.new "")).open_positions.map
      OpenPosition.leg) = [1] ∧
    ¬ 0 ∈ ((c7_states3.headD (ModelState.new "")).open_positions.map
      OpenPosition.leg) := by
  refine ⟨?_, ?_, ?_, ?_⟩
  · have h0 : EngineReachable [ModelState.new "Black-Scholes"] :=
      EngineReachable.init ["Black-Scholes"]
    have h1 : EngineReachable c7_states1 :=
      EngineReachable.tick [ModelState.new "Black-Scholes"] lnShift Rat.sqrt
        (fun _ => "uuid") (fun _ => 900) [("Black-Scholes", c7_model)]
        [Calibrator.new] VolatilityState.default (some (c7_mkt (1/2) (1/2)))
        100000 c7_config "t" 100 h0
    have h2 : EngineReachable c7_states2 :=
      EngineReachable.tick c7_states1 lnShift Rat.sqrt
        (fun _ => "uuid") (fun _ => 900) [("Black-Scholes", c7_model)]
        [Calibrator.new] VolatilityState.default
        (some (c7_mkt (3/5) (7/10))) 100100 c7_config "t" 101 h1
    exact EngineReachable.tick c7_states2 lnShift Rat.sqrt
      (fun _ => "uuid") (fun _ => 900) [("Black-Scholes", c7_model)]
      [Calibrator.new] VolatilityState.default
      (some (c7_mkt (3/5) (19/20))) 100100 c7_config "t" 105 h2
  · rw [c7_states3_positions]
    simp
  · rw [c7_states3_positions]
    norm_num [c7_pos2a, c7_pos2]
  · rw [c7_states3_positions]
    norm_num [c7_pos2a, c7_pos2]

end Kalshi
